import Mathlib

/-!
Verification development for the sensor-web repository.

The subject of this file is the floating-calibration pipeline
(`src/lib/calibration/floatingCalibration.ts`, function
`applyFloatingCalibration`) and the roughness histogram engine
(`src/lib/calibration/histogram.ts`).

Modelling conventions, used throughout:

* JavaScript `number` arithmetic is idealised as exact rational
  arithmetic.  The pipeline is embedded over the type `Frac` below, a
  fraction representation (integer numerator, positive integer
  denominator, gcd-normalised by every operation) whose operations all
  reduce inside the Lean kernel, so that concrete runs of the pipeline
  can be checked by `decide`.  The bridge `Frac.toRat : Frac → ℚ` is a
  proved homomorphism for every operation the pipeline uses, so the
  embedding is simultaneously an exact model over ℚ.  The histogram
  engine is embedded over ℚ directly.
* `Math.sqrt` has no exact rational counterpart.  Wherever the source
  only *compares* a square root against a positive constant
  (`Math.sqrt(s) > c`), the embedding uses the exactly equivalent
  rational comparison `s > c²`.  Wherever the *value* of a square root
  flows into data (normalising a vector, the DAN/DON signals, the
  confidence channel), the embedding uses `Frac.sqrtF`, an integer
  Newton square root lifted to fractions; it agrees with the real
  square root exactly whenever the argument is the square of a
  rational, and all concrete inputs used by witnesses below are chosen
  so that every square root taken is of this exact kind.
* A JavaScript array read `a[i]` that can yield `undefined` is
  modelled by `jsGet?` returning `Option`; dereferencing a property of
  a possibly-`undefined` value (which throws a `TypeError` in JS) is
  modelled in the `Option` monad, and a call that throws is modelled
  as `none`.  `a[i] || fallback` is `(jsGet? a i).getD fallback`.
* `console.log` calls in the source are pure diagnostics and are not
  modelled.
-/

/-! ### Frac: kernel-computable exact rational arithmetic

`Frac` is a fraction `num / den` with `0 < den`.  All operations
normalise by the gcd (`Nat.gcd` reduces in the kernel, unlike the
arithmetic of `ℚ` in this toolchain, which is why `ℚ` itself cannot be
used for the executable embedding).  Semantic equality and order are
given by cross multiplication (`Frac.feq`, `Frac.flt`, `Frac.fle`).
-/

structure Frac where
  num : ℤ
  den : ℤ
  dpos : 0 < den

namespace Frac

/-- Normalised constructor: divides out `Int.gcd n d`. -/
def norm (n d : ℤ) (hd : 0 < d) : Frac :=
  ⟨n / (Int.gcd n d : ℤ), d / (Int.gcd n d : ℤ), by
    set g : ℤ := (Int.gcd n d : ℤ) with hg
    have hg0 : 0 < g := by
      have hne : Int.gcd n d ≠ 0 := by
        intro h
        have h2 := (Int.gcd_eq_zero_iff.mp h).2
        omega
      have hpos : 0 < Int.gcd n d := Nat.pos_of_ne_zero hne
      rw [hg]
      exact_mod_cast hpos
    have hdvd : g ∣ d := Int.gcd_dvd_right
    rcases hdvd with ⟨k, hk⟩
    have hk0 : 0 < k := by
      rcases lt_trichotomy k 0 with h | h | h
      · exfalso
        have : d < 0 := by rw [hk]; exact mul_neg_of_pos_of_neg hg0 h
        omega
      · exfalso; rw [h, mul_zero] at hk; omega
      · exact h
    rw [hk, Int.mul_ediv_cancel_left _ (by omega)]
    exact hk0⟩

/-- Fraction literal `n / d`; falls back to denominator 1 if `d ≤ 0`
(all uses in this file have `0 < d`). -/
def fr (n d : ℤ) : Frac :=
  if h : 0 < d then ⟨n, d, h⟩ else ⟨n, 1, one_pos⟩

/-- Integer literal. -/
def fi (n : ℤ) : Frac := ⟨n, 1, one_pos⟩

def add (a b : Frac) : Frac :=
  norm (a.num * b.den + b.num * a.den) (a.den * b.den) (mul_pos a.dpos b.dpos)

def neg (a : Frac) : Frac := ⟨-a.num, a.den, a.dpos⟩

def sub (a b : Frac) : Frac := a.add b.neg

def mul (a b : Frac) : Frac :=
  norm (a.num * b.num) (a.den * b.den) (mul_pos a.dpos b.dpos)

/-- Division.  Division by (semantic) zero yields zero; every division
performed by the embedded pipeline is guarded by the source's own
minimum-magnitude tests. -/
def div (a b : Frac) : Frac :=
  if h : 0 < b.num then
    norm (a.num * b.den) (a.den * b.num) (mul_pos a.dpos h)
  else if h2 : b.num < 0 then
    norm (-(a.num * b.den)) (a.den * (-b.num)) (mul_pos a.dpos (by omega))
  else fi 0

def fabs (a : Frac) : Frac := ⟨|a.num|, a.den, a.dpos⟩

/-- Semantic strict order (cross multiplication). -/
def flt (a b : Frac) : Prop := a.num * b.den < b.num * a.den

/-- Semantic non-strict order (cross multiplication). -/
def fle (a b : Frac) : Prop := a.num * b.den ≤ b.num * a.den

/-- Semantic equality (cross multiplication). -/
def feq (a b : Frac) : Prop := a.num * b.den = b.num * a.den

instance (a b : Frac) : Decidable (flt a b) := by unfold flt; infer_instance
instance (a b : Frac) : Decidable (fle a b) := by unfold fle; infer_instance
instance (a b : Frac) : Decidable (feq a b) := by unfold feq; infer_instance

/-- `Math.min`. -/
def fmin (a b : Frac) : Frac := if fle a b then a else b

/-- `Math.max`. -/
def fmax (a b : Frac) : Frac := if fle a b then b else a

/-- `Math.floor` (exact: `Int.ediv` is floor division for a positive
denominator). -/
def ffloor (a : Frac) : ℤ := a.num / a.den

/-- Integer square root by Newton iteration (structural on fuel, so it
reduces in the kernel; `Nat.sqrt` of this toolchain does not). -/
def isqrtAux (n : ℕ) : ℕ → ℕ → ℕ
  | 0, g => g
  | fuel + 1, g =>
    let g2 := (g + n / g) / 2
    if g2 < g then isqrtAux n fuel g2 else g

def isqrt (n : ℕ) : ℕ := if n ≤ 1 then n else isqrtAux n n n

/-- Model of `Math.sqrt` on fractions: `√(p/q) = √(p·q)/q`, with the
integer square root rounded down.  Exact whenever the argument is the
square of a rational (then `p·q` is a perfect square for any
representative `p/q`).  `Math.sqrt` of a negative number is `NaN` in
JS; the pipeline never takes the root of a negative value (all its
arguments are sums of squares), and the model returns 0 there. -/
def sqrtF (a : Frac) : Frac :=
  if a.num ≤ 0 then fi 0
  else norm (Int.ofNat (isqrt (a.num * a.den).toNat)) a.den a.dpos

/-- Semantics: the rational value of a fraction. -/
def toRat (a : Frac) : ℚ := (a.num : ℚ) / (a.den : ℚ)

end Frac

/-! ### Data model (`src/lib/calibration/types.ts`)

`Vector3D.timestamp` is optional in the source; an absent timestamp is
modelled as 0, which has the same JS truthiness (both `undefined` and
`0` are falsy, and the only non-display use of a sample timestamp is a
truthiness test plus arithmetic). -/

def f0 : Frac := Frac.fi 0

def f1 : Frac := Frac.fi 1

structure Vector3D where
  x : Frac
  y : Frac
  z : Frac
  timestamp : Frac

structure GPSData where
  mph : Frac
  kph : Frac
  mps : Frac
  lat : Frac
  lng : Frac
  timestamp : Frac

structure RoadDANSegment where
  geohash8 : String
  lat : Frac
  lng : Frac
  roadDAN : Frac
  timestamp : Frac
  speedMph : Frac

def v3 (x y z : Frac) : Vector3D := ⟨x, y, z, f0⟩

def v3Zero : Vector3D := v3 f0 f0 f0

def gpsZero : GPSData := ⟨f0, f0, f0, f0, f0, f0⟩

/-- Dot product on the spatial components. -/
def dotV (a b : Vector3D) : Frac :=
  ((a.x.mul b.x).add ((a.y.mul b.y).add (a.z.mul b.z)))

def subV (a b : Vector3D) : Vector3D := v3 (a.x.sub b.x) (a.y.sub b.y) (a.z.sub b.z)

def scaleV (s : Frac) (a : Vector3D) : Vector3D := v3 (s.mul a.x) (s.mul a.y) (s.mul a.z)

/-- Componentwise division by a scalar (`v.x /= m` etc. in the source). -/
def divV (a : Vector3D) (m : Frac) : Vector3D := v3 (a.x.div m) (a.y.div m) (a.z.div m)

/-- Cross product `a × b` (source lines 586-591). -/
def crossV (a b : Vector3D) : Vector3D :=
  v3 ((a.y.mul b.z).sub (a.z.mul b.y))
     ((a.z.mul b.x).sub (a.x.mul b.z))
     ((a.x.mul b.y).sub (a.y.mul b.x))

/-- JS array read `l[i]`: `undefined` (here `none`) when the index is
out of range (including the negative indices the source can produce
via `gpsData.length - 1` on an empty array). -/
def jsGet? {α : Type} (l : List α) (i : ℤ) : Option α :=
  if h : 0 ≤ i ∧ i.toNat < l.length then some (l.get ⟨i.toNat, h.2⟩) else none

/-- `a*old + (1-a)*new` (the filter shape of source lines 254-256,
264-266, 280-282, 516-518, 613-615). -/
def emaOldNew (a old nw : Frac) : Frac := (a.mul old).add ((f1.sub a).mul nw)

/-- `a*new + (1-a)*old` (the filter shape of source lines 164,
295-297, 306-308, 333). -/
def emaNewOld (a nw old : Frac) : Frac := (a.mul nw).add ((f1.sub a).mul old)

/-- `deltaTime = 1 / SAMPLE_RATE` (source lines 132-133). -/
def deltaTimeF : Frac := (Frac.fi 1).div (Frac.fi 60)

/-- `Math.PI`: the exact value of the IEEE-754 double. -/
def piF : Frac := Frac.fr 884279719003555 281474976710656

/-! ### GPS pre-processing (source lines 8-40 and 135-239) -/

/-- Source lines 8-40 (`interpolateGPSData`). -/
def interpolateGPSData (gpsData : List GPSData) (targetLength : ℕ) : List GPSData :=
  if gpsData.length = 0 then
    List.replicate targetLength gpsZero
  else if gpsData.length = targetLength then gpsData
  else
    (List.range targetLength).map fun i =>
      let r : Frac := ((Frac.fi i).div (Frac.fi targetLength)).mul (Frac.fi gpsData.length)
      let prevIndex : ℕ := r.ffloor.toNat
      let nextIndex : ℕ := min (prevIndex + 1) (gpsData.length - 1)
      if prevIndex = nextIndex then gpsData.getD prevIndex gpsZero
      else
        let blend := r.sub (Frac.fi prevIndex)
        let prevGPS := gpsData.getD prevIndex gpsZero
        let nextGPS := gpsData.getD nextIndex gpsZero
        ⟨prevGPS.mph.add ((nextGPS.mph.sub prevGPS.mph).mul blend),
         prevGPS.kph.add ((nextGPS.kph.sub prevGPS.kph).mul blend),
         prevGPS.mps.add ((nextGPS.mps.sub prevGPS.mps).mul blend),
         prevGPS.lat.add ((nextGPS.lat.sub prevGPS.lat).mul blend),
         prevGPS.lng.add ((nextGPS.lng.sub prevGPS.lng).mul blend),
         Frac.fi i⟩

/-- Recursive α=0.5 smoothing of GPS speed, continuation after the
first sample (source lines 140-154; `2.237` and `3.6` are the
mph and kph conversion factors of the source). -/
def smoothMPSFrom (prev : Frac) : List GPSData → List GPSData
  | [] => []
  | g :: rest =>
    let s := prev.add ((g.mps.sub prev).div (Frac.fi 2))
    ⟨s.mul (Frac.fr 2237 1000), s.mul (Frac.fr 18 5), s, g.lat, g.lng, g.timestamp⟩ ::
      smoothMPSFrom s rest

/-- Source lines 135-154 (`smoothedRawGPS`): at index 0 the smoothed
value is the raw value itself. -/
def smoothedRawGPS : List GPSData → List GPSData
  | [] => []
  | g :: rest =>
    ⟨g.mps.mul (Frac.fr 2237 1000), g.mps.mul (Frac.fr 18 5), g.mps, g.lat, g.lng,
      g.timestamp⟩ :: smoothMPSFrom g.mps rest

def emaGPSFrom (gpsSpeedAlpha prev : Frac) : List GPSData → List GPSData
  | [] => []
  | g :: rest =>
    let s := emaOldNew gpsSpeedAlpha prev g.mps
    ⟨s.mul (Frac.fr 2237 1000), s.mul (Frac.fr 18 5), s, g.lat, g.lng, g.timestamp⟩ ::
      emaGPSFrom gpsSpeedAlpha s rest

/-- Source lines 156-174 (`filteredRawGPS`): `smoothedMPS` starts at
`gpsData[0].mps` and the EMA `gpsSpeedAlpha*prev + (1-gpsSpeedAlpha)*mps`
runs over every sample including the first. -/
def filteredRawGPS (gpsSpeedAlpha : Frac) (gpsData : List GPSData) : List GPSData :=
  match gpsData with
  | [] => []
  | g :: _ => emaGPSFrom gpsSpeedAlpha g.mps gpsData

/-- Source lines 176-186: 1 Hz GPS delta times (seconds). -/
def gpsDeltaTimeArray (sm : List GPSData) : List Frac :=
  (List.range sm.length).map fun i =>
    if i = 0 then f0
    else ((sm.getD i gpsZero).timestamp.sub ((sm.getD (i - 1) gpsZero).timestamp)).div
      (Frac.fi 1000)

/-- Source line 185: timestamps converted ms → s. -/
def gpsTimestampArray (sm : List GPSData) : List Frac :=
  sm.map fun g => g.timestamp.div (Frac.fi 1000)

/-- Source lines 188-194 (`steppedRawGPS`).  With an empty `gpsData`
and a non-empty `accelData` the clamped index is `-1`, the read is
`undefined`, and `.mps` throws — hence the `Option`. -/
def steppedRawGPS (accelLen : ℕ) (gpsData : List GPSData) : Option (List Frac) :=
  (List.range accelLen).mapM fun i =>
    let gpsIndex : ℤ := (((Frac.fi i).div (Frac.fi accelLen)).mul (Frac.fi gpsData.length)).ffloor
    let clampedIndex : ℤ := min gpsIndex ((gpsData.length : ℤ) - 1)
    (jsGet? gpsData clampedIndex).map (·.mps)

/-- One iteration of source lines 206-228: windowed difference of the
interpolated smoothed speed, clamp to `[-10.8, 4.9]`, recursive α=0.5
smoothing. -/
def rawGPSAccelStep (accelLen : ℕ) (sm : List GPSData) (i : ℕ) (smoothedAccel : Frac) :
    Frac :=
  let accel0 : Frac :=
    if 30 ≤ i ∧ i < accelLen - 30 then
      let dt := (Frac.fi (2 * 30)).div (Frac.fi 60)
      ((sm.getD (i + 30) gpsZero).mps.sub ((sm.getD (i - 30) gpsZero).mps)).div dt
    else if 0 < i then
      let dt := (Frac.fi 1).div (Frac.fi 60)
      ((sm.getD i gpsZero).mps.sub ((sm.getD (i - 1) gpsZero).mps)).div dt
    else f0
  let clamped := (Frac.fr (-54) 5).fmax ((Frac.fr 49 10).fmin accel0)
  smoothedAccel.add ((clamped.sub smoothedAccel).div (Frac.fi 2))

/-- Source lines 201-229 (`interpolatedRawGPSAccel`). -/
def interpolatedRawGPSAccelList (accelLen : ℕ) (sm : List GPSData) : List Frac :=
  (((List.range accelLen).foldl
      (fun (acc : List Frac × Frac) i =>
        let s := rawGPSAccelStep accelLen sm i acc.2
        (s :: acc.1, s))
      ([], f0)).1).reverse

/-- Source lines 231-239: step a 1 Hz array to 60 Hz.  On an empty
source array the read is `undefined` and is pushed as such (`none`);
no property access occurs, so nothing throws here. -/
def steppedTo60Hz (accelLen : ℕ) (arr : List Frac) : List (Option Frac) :=
  (List.range accelLen).map fun i =>
    let gpsIndex : ℤ := (((Frac.fi i).div (Frac.fi accelLen)).mul (Frac.fi arr.length)).ffloor
    let clampedIndex : ℤ := min gpsIndex ((arr.length : ℤ) - 1)
    jsGet? arr clampedIndex

/-! ### Geohash (the `ngeohash.encode(lat, lng, 8)` call of line 646;
standard base32 geohash, longitude bit first) -/

def geohashAlphabet : List Char :=
  ['0', '1', '2', '3', '4', '5', '6', '7', '8', '9', 'b', 'c', 'd', 'e', 'f', 'g',
   'h', 'j', 'k', 'm', 'n', 'p', 'q', 'r', 's', 't', 'u', 'v', 'w', 'x', 'y', 'z']

def geohashBits (lat lng : Frac) : ℕ → Frac × Frac → Frac × Frac → Bool → List Bool
  | 0, _, _, _ => []
  | fuel + 1, latI, lngI, evenBit =>
    if evenBit then
      let mid := (lngI.1.add lngI.2).div (Frac.fi 2)
      if Frac.fle mid lng then true :: geohashBits lat lng fuel latI (mid, lngI.2) false
      else false :: geohashBits lat lng fuel latI (lngI.1, mid) false
    else
      let mid := (latI.1.add latI.2).div (Frac.fi 2)
      if Frac.fle mid lat then true :: geohashBits lat lng fuel (mid, latI.2) lngI true
      else false :: geohashBits lat lng fuel (latI.1, mid) lngI true

def bitsToNat (bs : List Bool) : ℕ := bs.foldl (fun n b => 2 * n + cond b 1 0) 0

def geohashEncode (lat lng : Frac) (precision : ℕ) : String :=
  let bits := geohashBits lat lng (5 * precision)
    (Frac.fi (-90), Frac.fi 90) (Frac.fi (-180), Frac.fi 180) true
  String.mk ((List.range precision).map fun c =>
    geohashAlphabet.getD (bitsToNat ((bits.drop (5 * c)).take 5)) '0')

/-! ### Tracker state and per-sample outputs (source lines 42-133) -/

/-- The mutable loop-carried variables of `applyFloatingCalibration`
(source lines 107-133), plus the `_danAccumulator` / `_danSampleCount`
/ `_donAccumulator` / `_donSampleCount` side accumulators that the
source stores on the result object (lines 636-637, 656-661, 683-693);
they are loop state in all but name and are carried here explicitly.
All are initialised to zero. -/
structure TrackerState where
  gravity : Vector3D
  forward : Vector3D
  prevForward : Vector3D
  prevHeading : Frac
  totalForwardUpdates : ℕ
  magHeadingUnwrapped : Frac
  integratedHeading_accel : Frac
  integratedHeading_gyro : Frac
  prevMagHeading : Frac
  accelFilteredX : Frac
  accelFilteredY : Frac
  accelFilteredZ : Frac
  gyroFilteredX : Frac
  gyroFilteredY : Frac
  gyroFilteredZ : Frac
  filteredLinearAccelX : Frac
  filteredLinearAccelY : Frac
  filteredLinearAccelZ : Frac
  filteredGyroX : Frac
  filteredGyroY : Frac
  filteredGyroZ : Frac
  filteredMagHeading : Frac
  danAccumulator : Frac
  danSampleCount : Frac
  donAccumulator : Frac
  donSampleCount : Frac

def initState : TrackerState where
  gravity := v3Zero
  forward := v3Zero
  prevForward := v3Zero
  prevHeading := f0
  totalForwardUpdates := 0
  magHeadingUnwrapped := f0
  integratedHeading_accel := f0
  integratedHeading_gyro := f0
  prevMagHeading := f0
  accelFilteredX := f0
  accelFilteredY := f0
  accelFilteredZ := f0
  gyroFilteredX := f0
  gyroFilteredY := f0
  gyroFilteredZ := f0
  filteredLinearAccelX := f0
  filteredLinearAccelY := f0
  filteredLinearAccelZ := f0
  filteredGyroX := f0
  filteredGyroY := f0
  filteredGyroZ := f0
  filteredMagHeading := f0
  danAccumulator := f0
  danSampleCount := f0
  donAccumulator := f0
  donSampleCount := f0

/-- The values pushed onto the result arrays by one iteration of the
main loop: one field per per-sample output array of
`CalibrationResult`, plus the optional geolocated segment of this
iteration. -/
structure StepOut where
  transformed : Vector3D
  gravityHistory : Vector3D
  forwardHistory : Vector3D
  forwardChangeRate : Frac
  confidence : Frac
  gpsAccelDetected : Bool
  turningDetected : Bool
  forwardUpdateCount : ℕ
  virtualForwardAccel : Frac
  virtualLateralAccel : Frac
  phoneStable : Bool
  vehicleStationary : Bool
  vehicleMoving : Bool
  magHeading : Frac
  gpsSpeedRaw : Frac
  gpsSpeedSmoothed : Frac
  gpsSpeedFiltered : Frac
  rawGPSAccel : Frac
  gpsDeltaTime : Option Frac
  gpsTimestamp : Option Frac
  accelLinearX_measured : Frac
  accelLinearY_measured : Frac
  accelLinearZ_measured : Frac
  accelY_measured : Frac
  accelY_fromGyro : Frac
  accelY_fromMag : Frac
  gyroZ_measured : Frac
  gyroZ_fromAccel : Frac
  gyroZ_fromMag : Frac
  heading_measured : Frac
  heading_fromAccel : Frac
  heading_fromGyro : Frac
  accelFilteredX : Frac
  accelFilteredY : Frac
  accelFilteredZ : Frac
  gyroFilteredX : Frac
  gyroFilteredY : Frac
  gyroFilteredZ : Frac
  gravityUpdating : Bool
  xPrimeFiltered : Frac
  yPrimeFiltered : Frac
  zPrimeFiltered : Frac
  danX : Frac
  roadDAN : Frac
  segment : Option RoadDANSegment
  donX : Frac
  roadDON : Frac

/-- Placeholder for "the previous iteration's pushes" at `i = 0`.  The
source only reads back previously pushed values at `i > 0`
(`danX[i-1]`, `donX[i-1]`, last `roadDAN`/`roadDON`, previous
`xPrimeFiltered` etc.), so these zero values are never observed. -/
def initStepOut : StepOut where
  transformed := v3Zero
  gravityHistory := v3Zero
  forwardHistory := v3Zero
  forwardChangeRate := f0
  confidence := f0
  gpsAccelDetected := false
  turningDetected := false
  forwardUpdateCount := 0
  virtualForwardAccel := f0
  virtualLateralAccel := f0
  phoneStable := false
  vehicleStationary := false
  vehicleMoving := false
  magHeading := f0
  gpsSpeedRaw := f0
  gpsSpeedSmoothed := f0
  gpsSpeedFiltered := f0
  rawGPSAccel := f0
  gpsDeltaTime := none
  gpsTimestamp := none
  accelLinearX_measured := f0
  accelLinearY_measured := f0
  accelLinearZ_measured := f0
  accelY_measured := f0
  accelY_fromGyro := f0
  accelY_fromMag := f0
  gyroZ_measured := f0
  gyroZ_fromAccel := f0
  gyroZ_fromMag := f0
  heading_measured := f0
  heading_fromAccel := f0
  heading_fromGyro := f0
  accelFilteredX := f0
  accelFilteredY := f0
  accelFilteredZ := f0
  gyroFilteredX := f0
  gyroFilteredY := f0
  gyroFilteredZ := f0
  gravityUpdating := false
  xPrimeFiltered := f0
  yPrimeFiltered := f0
  zPrimeFiltered := f0
  danX := f0
  roadDAN := f0
  segment := none
  donX := f0
  roadDON := f0

/-- The tuning parameters of `applyFloatingCalibration` (source lines
47-51; defaults `0.95, 0.05, 0.05, 0.95, 0.95`). -/
structure CalibParams where
  alpha : Frac
  observerAlpha : Frac
  filterAlpha : Frac
  gpsSpeedAlpha : Frac
  danDecay : Frac

/-- The input arrays together with the GPS-derived arrays the source
computes before the main loop (lines 188-239). -/
structure CalibCtx where
  accelData : List Vector3D
  gyroData : List Vector3D
  magData : List Vector3D
  gpsData : List GPSData
  interpolatedGPS : List GPSData
  interpolatedGPSSmoothed : List GPSData
  interpolatedGPSFiltered : List GPSData
  interpolatedRawGPSAccel : List Frac
  steppedRawGPS : List Frac
  interpolatedGPSDeltaTime : List (Option Frac)
  interpolatedGPSTimestamp : List (Option Frac)

/-! ### The basis and forward-learning helpers (source lines 520-526
and 563-584).  All `Math.sqrt(s) > c` guards are written as the
exactly equivalent `s > c²`. -/

/-- Source lines 520-526: renormalise `forward` to unit length when
`Math.sqrt(forward·forward) > 0.01`, i.e. exactly when
`forward·forward > 0.0001`. -/
def renormalizeForward (f : Vector3D) : Vector3D :=
  if Frac.flt (Frac.fr 1 10000) (dotV f f) then divV f (Frac.sqrtF (dotV f f)) else f

/-- Source lines 567-576: `down` is normalised gravity when
`Math.sqrt(gravity·gravity) > 0.1` (⟺ `gravity·gravity > 0.01`), and
the identity `{0,0,1}` otherwise. -/
def downOf (g : Vector3D) : Vector3D :=
  if Frac.flt (Frac.fr 1 100) (dotV g g) then divV g (Frac.sqrtF (dotV g g)) else v3 f0 f0 f1

/-- Source lines 578-584: `forwardDir` is normalised `forward` when its
magnitude exceeds 0.1, and the identity `{1,0,0}` otherwise. -/
def fwdDirOf (f : Vector3D) : Vector3D :=
  if Frac.flt (Frac.fr 1 100) (dotV f f) then divV f (Frac.sqrtF (dotV f f)) else v3 f1 f0 f0

/-- Normalisation of a vector to unit length (used to state the
specification's "`down` = normalized gravity direction"). -/
def normalizeV (v : Vector3D) : Vector3D := divV v (Frac.sqrtF (dotV v v))

/-- Source lines 540-552 (STEP 9): orthogonalize `forward` against
gravity when `Math.sqrt(gravity·gravity) > 0.1` (⟺
`gravity·gravity > 0.01`) and at least one forward update has
happened.  The source subtracts `(forward·(g/√(g·g)))·(g/√(g·g))`,
which over exact reals equals `((forward·g)/(g·g))·g`, the exact
rational form used here. -/
def orthogonalizeForward (forward gravity : Vector3D) (tfu : ℕ) : Vector3D :=
  if Frac.flt (Frac.fr 1 100) (dotV gravity gravity) ∧ 0 < tfu then
    subV forward (scaleV ((dotV forward gravity).div (dotV gravity gravity)) gravity)
  else forward

/-- Source lines 633-663 (RoadDAN block aggregation): given the sample
index, the interpolated GPS fix, the incoming accumulator and count,
this sample's `danX` and the last pushed `roadDAN`, returns the new
accumulator, the new count, the pushed `roadDAN` value and the
optional geolocated segment.  At `i = 0` the accumulator is seeded
with `danX[0]`; at a boundary (`i % 60 == 0`, `i ≠ 0`) the average of
the accumulated window is emitted, a segment is created when the fix
has nonzero lat *and* lng, and the accumulator resets to empty —
note the boundary sample itself is not accumulated; otherwise the
sample is accumulated and the last value is repeated. -/
def roadDANUpdate (i : ℕ) (gps : GPSData) (danAcc danCount danXi prevRoad : Frac) :
    Frac × Frac × Frac × Option RoadDANSegment :=
  if i = 0 then (danXi, f1, danXi, none)
  else if i % 60 = 0 then
    let avgDAN := danAcc.div danCount
    let seg : Option RoadDANSegment :=
      if ¬ Frac.feq gps.lat f0 ∧ ¬ Frac.feq gps.lng f0 then
        some ⟨geohashEncode gps.lat gps.lng 8, gps.lat, gps.lng, avgDAN, gps.timestamp,
          gps.mph⟩
      else none
    (f0, f0, avgDAN, seg)
  else (danAcc.add danXi, danCount.add f1, prevRoad, none)

/-- Source lines 681-695 (RoadDON): same accumulation scheme, no
geocoding. -/
def roadDONUpdate (i : ℕ) (donAcc donCount donXi prevRoad : Frac) : Frac × Frac × Frac :=
  if i = 0 then (donXi, f1, donXi)
  else if i % 60 = 0 then (f0, f0, donAcc.div donCount)
  else (donAcc.add donXi, donCount.add f1, prevRoad)

/-! ### The main loop body (source lines 242-703) -/

/-- One iteration of the main loop, for a sample index `i` at which the
gyro sample exists (`gyro`).  `prev` holds the values pushed by the
previous iteration; the source reads them back from the result arrays
(`result.danX[i-1]`, `result.roadDAN[...]`, `result.xPrimeFiltered[i-1]`,
`result.donX[i-1]`, `result.roadDON[...]`, and `result.gyroFilteredX[i]`
which is the value pushed earlier in the same iteration).  Returns the
updated state and this iteration's pushes. -/
def calibStepCore (P : CalibParams) (C : CalibCtx) (i : ℕ) (st : TrackerState)
    (prev : StepOut) (gyro : Vector3D) : TrackerState × StepOut :=
  let accel := C.accelData.getD i v3Zero
  let gps := C.interpolatedGPS.getD i gpsZero
  let gpsSmoothed := C.interpolatedGPSSmoothed.getD i gpsZero
  let gpsFiltered := C.interpolatedGPSFiltered.getD i gpsZero
  -- STEP 0 (lines 253-256): filter raw accel with `alpha`
  let accelFilteredX := emaOldNew P.alpha st.accelFilteredX accel.x
  let accelFilteredY := emaOldNew P.alpha st.accelFilteredY accel.y
  let accelFilteredZ := emaOldNew P.alpha st.accelFilteredZ accel.z
  -- lines 263-266: filter raw gyro with `filterAlpha`
  let gyroFilteredX := emaOldNew P.filterAlpha st.gyroFilteredX gyro.x
  let gyroFilteredY := emaOldNew P.filterAlpha st.gyroFilteredY gyro.y
  let gyroFilteredZ := emaOldNew P.filterAlpha st.gyroFilteredZ gyro.z
  -- STEP 1 (lines 273-275)
  let virtualForwardAccel := C.interpolatedRawGPSAccel.getD i f0
  let significantAccel : Prop := Frac.flt (Frac.fr 1 5) virtualForwardAccel.fabs
  -- STEP 2 (lines 277-283): gravity low-pass, frozen during acceleration
  let gravity :=
    if significantAccel then st.gravity
    else v3 (emaOldNew P.alpha st.gravity.x accelFilteredX)
            (emaOldNew P.alpha st.gravity.y accelFilteredY)
            (emaOldNew P.alpha st.gravity.z accelFilteredZ)
  -- STEP 3 (lines 286-291)
  let linearAccel := v3 (accel.x.sub gravity.x) (accel.y.sub gravity.y) (accel.z.sub gravity.z)
  -- STEP 4 (lines 293-303): filter the linear acceleration with `observerAlpha`
  let filteredLinearAccelX := emaNewOld P.observerAlpha linearAccel.x st.filteredLinearAccelX
  let filteredLinearAccelY := emaNewOld P.observerAlpha linearAccel.y st.filteredLinearAccelY
  let filteredLinearAccelZ := emaNewOld P.observerAlpha linearAccel.z st.filteredLinearAccelZ
  -- STEP 5 (lines 305-308)
  let filteredGyroX := emaNewOld P.observerAlpha gyro.x st.filteredGyroX
  let filteredGyroY := emaNewOld P.observerAlpha gyro.y st.filteredGyroY
  let filteredGyroZ := emaNewOld P.observerAlpha gyro.z st.filteredGyroZ
  -- STEP 6 (lines 310-316)
  let currentSpeed := gps.mps
  let rotationRate := gyro.z
  let virtualLateralAccel := currentSpeed.mul rotationRate
  -- STEP 7 (lines 329-337): magnetometer heading, filtered and differenced
  let magIndex : ℤ := min (i : ℤ) ((C.magData.length : ℤ) - 1)
  let mag := (jsGet? C.magData magIndex).getD v3Zero
  let rawMagHeading := (mag.x.mul piF).div (Frac.fi 180)
  let filteredMagHeading := emaNewOld P.observerAlpha rawMagHeading st.filteredMagHeading
  let magHeadingRate :=
    if 0 < i then (filteredMagHeading.sub st.prevMagHeading).div deltaTimeF else f0
  -- trifectas (lines 414-452)
  let accelY_fromGyro := currentSpeed.mul filteredGyroZ
  let accelY_fromMag := currentSpeed.mul magHeadingRate
  let gyroZ_fromAccel :=
    if Frac.flt f1 currentSpeed then filteredLinearAccelY.div currentSpeed else f0
  let integratedHeading_accel := st.integratedHeading_accel.add (gyroZ_fromAccel.mul deltaTimeF)
  let integratedHeading_gyro := st.integratedHeading_gyro.add (filteredGyroZ.mul deltaTimeF)
  -- magnetometer heading unwrap (lines 458-494); `magSample` at line 462
  -- rereads the same entry `mag` of line 331
  let magHeadingDeg := mag.x
  let unwrapped :=
    if i = 0 then (magHeadingDeg, magHeadingDeg)
    else
      let diff0 := magHeadingDeg.sub st.prevHeading
      let diff :=
        if Frac.flt (Frac.fi 180) diff0 then diff0.sub (Frac.fi 360)
        else if Frac.flt diff0 (Frac.fi (-180)) then diff0.add (Frac.fi 360)
        else diff0
      (st.magHeadingUnwrapped.add diff, magHeadingDeg)
  -- stability detection (lines 496-504).  `|√s − 9.8| < 1.5` is written
  -- as `68.89 < s ∧ s < 127.69` (squares of 8.3 and 11.3) and
  -- `√gyroSq < 0.3` as `gyroSq < 0.09`, exact equivalences.
  let accelMagSq := dotV accel accel
  let gyroMagnitudeSq := (gyroFilteredX.mul gyroFilteredX).add
    ((gyroFilteredY.mul gyroFilteredY).add (gyroFilteredZ.mul gyroFilteredZ))
  let phoneStable := decide (Frac.flt (Frac.fr 6889 100) accelMagSq ∧
    Frac.flt accelMagSq (Frac.fr 12769 100) ∧ Frac.flt gyroMagnitudeSq (Frac.fr 9 100))
  let vehicleStationary := decide (Frac.flt virtualForwardAccel.fabs (Frac.fr 1 10))
  let vehicleMoving := decide (Frac.flt f1 currentSpeed)
  -- STEP 8 (lines 510-529): forward learning during GPS acceleration
  let learned :=
    if significantAccel then
      let sign : Frac := if Frac.flt f0 virtualForwardAccel then f1 else Frac.fi (-1)
      let f1v := v3 (emaOldNew P.alpha st.forward.x (linearAccel.x.mul sign))
                    (emaOldNew P.alpha st.forward.y (linearAccel.y.mul sign))
                    (emaOldNew P.alpha st.forward.z (linearAccel.z.mul sign))
      (renormalizeForward f1v, st.totalForwardUpdates + 1)
    else (st.forward, st.totalForwardUpdates)
  let forward1 := learned.1
  let totalForwardUpdates := learned.2
  -- lines 531-538
  let forwardChange :=
    Frac.sqrtF (dotV (subV forward1 st.prevForward) (subV forward1 st.prevForward))
  -- STEP 9 (lines 540-552): see `orthogonalizeForward`
  let gravityMagSq := dotV gravity gravity
  let forward2 := orthogonalizeForward forward1 gravity totalForwardUpdates
  -- STEP 10 (lines 554-561)
  let gravityMagnitude := Frac.sqrtF gravityMagSq
  let forwardMagnitude := Frac.sqrtF (dotV forward2 forward2)
  let gravityConfidence := f1.fmin (gravityMagnitude.div (Frac.fr 49 5))
  let forwardConfidence := f1.fmin (forwardMagnitude.div (Frac.fr 1 2))
  let confidence := (gravityConfidence.add forwardConfidence).div (Frac.fi 2)
  -- STEP 11 (lines 563-599)
  let down := downOf gravity
  let forwardDir := fwdDirOf forward2
  let lateral := crossV forwardDir down
  let transformed : Vector3D :=
    ⟨dotV linearAccel forwardDir, dotV linearAccel lateral, dotV linearAccel down,
     accel.timestamp⟩
  -- EMA of the transformed signal (lines 604-616)
  let xPrimeFiltered :=
    if i = 0 then transformed.x else emaOldNew P.alpha prev.xPrimeFiltered transformed.x
  let yPrimeFiltered :=
    if i = 0 then transformed.y else emaOldNew P.alpha prev.yPrimeFiltered transformed.y
  let zPrimeFiltered :=
    if i = 0 then transformed.z else emaOldNew P.alpha prev.zPrimeFiltered transformed.z
  -- DAN (lines 618-631).  The source takes `deviationMagnitude =
  -- √(devX²+devY²+devZ²)` and immediately squares it again; over exact
  -- reals `deviationSquared` is the plain sum of squares used here.
  let devX := accel.x.sub accelFilteredX
  let devY := accel.y.sub accelFilteredY
  let devZ := accel.z.sub accelFilteredZ
  let deviationSquared := (devX.mul devX).add ((devY.mul devY).add (devZ.mul devZ))
  let danX :=
    if i = 0 then Frac.sqrtF deviationSquared
    else Frac.sqrtF ((P.danDecay.mul (prev.danX.mul prev.danX)).add
      ((f1.sub P.danDecay).mul deviationSquared))
  -- RoadDAN (lines 633-663): see `roadDANUpdate`
  let danRes := roadDANUpdate i gps st.danAccumulator st.danSampleCount danX prev.roadDAN
  -- DON (lines 665-679): note the source reads `gyroData[i]` here
  -- without the `|| zero` guard (handled by the `calibStep` wrapper)
  -- and `result.gyroFilteredX[i]`, the value pushed this iteration.
  let gyroDevX := gyro.x.sub gyroFilteredX
  let gyroDevY := gyro.y.sub gyroFilteredY
  let gyroDevZ := gyro.z.sub gyroFilteredZ
  let gyroDeviationSquared := (gyroDevX.mul gyroDevX).add
    ((gyroDevY.mul gyroDevY).add (gyroDevZ.mul gyroDevZ))
  let donDecay := Frac.fr 19 20
  let donX :=
    if i = 0 then Frac.sqrtF gyroDeviationSquared
    else Frac.sqrtF ((donDecay.mul (prev.donX.mul prev.donX)).add
      ((f1.sub donDecay).mul gyroDeviationSquared))
  -- RoadDON (lines 681-695): see `roadDONUpdate`
  let donRes := roadDONUpdate i st.donAccumulator st.donSampleCount donX prev.roadDON
  ({ gravity := gravity
     forward := forward2
     prevForward := forward1
     prevHeading := unwrapped.2
     totalForwardUpdates := totalForwardUpdates
     magHeadingUnwrapped := unwrapped.1
     integratedHeading_accel := integratedHeading_accel
     integratedHeading_gyro := integratedHeading_gyro
     prevMagHeading := filteredMagHeading
     accelFilteredX := accelFilteredX
     accelFilteredY := accelFilteredY
     accelFilteredZ := accelFilteredZ
     gyroFilteredX := gyroFilteredX
     gyroFilteredY := gyroFilteredY
     gyroFilteredZ := gyroFilteredZ
     filteredLinearAccelX := filteredLinearAccelX
     filteredLinearAccelY := filteredLinearAccelY
     filteredLinearAccelZ := filteredLinearAccelZ
     filteredGyroX := filteredGyroX
     filteredGyroY := filteredGyroY
     filteredGyroZ := filteredGyroZ
     filteredMagHeading := filteredMagHeading
     danAccumulator := danRes.1
     danSampleCount := danRes.2.1
     donAccumulator := donRes.1
     donSampleCount := donRes.2.1 },
   { transformed := transformed
     gravityHistory := ⟨gravity.x, gravity.y, gravity.z, accel.timestamp⟩
     forwardHistory := ⟨forward2.x, forward2.y, forward2.z, accel.timestamp⟩
     forwardChangeRate := forwardChange
     confidence := confidence
     gpsAccelDetected := decide significantAccel
     turningDetected := decide (Frac.flt (Frac.fr 1 10) rotationRate.fabs)
     forwardUpdateCount := totalForwardUpdates
     virtualForwardAccel := virtualForwardAccel
     virtualLateralAccel := virtualLateralAccel
     phoneStable := phoneStable
     vehicleStationary := vehicleStationary
     vehicleMoving := vehicleMoving
     magHeading := unwrapped.1.div (Frac.fi 10)
     gpsSpeedRaw := C.steppedRawGPS.getD i f0
     gpsSpeedSmoothed := gpsSmoothed.mps
     gpsSpeedFiltered := gpsFiltered.mps
     rawGPSAccel := virtualForwardAccel
     gpsDeltaTime := C.interpolatedGPSDeltaTime.getD i none
     gpsTimestamp := C.interpolatedGPSTimestamp.getD i none
     accelLinearX_measured := filteredLinearAccelX
     accelLinearY_measured := filteredLinearAccelY
     accelLinearZ_measured := filteredLinearAccelZ
     accelY_measured := filteredLinearAccelY
     accelY_fromGyro := accelY_fromGyro
     accelY_fromMag := accelY_fromMag
     gyroZ_measured := filteredGyroZ
     gyroZ_fromAccel := gyroZ_fromAccel
     gyroZ_fromMag := magHeadingRate
     heading_measured := filteredMagHeading.mul ((Frac.fi 180).div piF)
     heading_fromAccel := integratedHeading_accel.mul ((Frac.fi 180).div piF)
     heading_fromGyro := integratedHeading_gyro.mul ((Frac.fi 180).div piF)
     accelFilteredX := accelFilteredX
     accelFilteredY := accelFilteredY
     accelFilteredZ := accelFilteredZ
     gyroFilteredX := gyroFilteredX
     gyroFilteredY := gyroFilteredY
     gyroFilteredZ := gyroFilteredZ
     gravityUpdating := decide (¬ significantAccel)
     xPrimeFiltered := xPrimeFiltered
     yPrimeFiltered := yPrimeFiltered
     zPrimeFiltered := zPrimeFiltered
     danX := danX
     roadDAN := danRes.2.2.1
     segment := danRes.2.2.2
     donX := donX
     roadDON := donRes.2.2 })

/-- One iteration including the possibility of throwing: the DON step
(source line 666) dereferences `gyroData[i].x` without the `|| zero`
guard of line 244, so an iteration whose gyro sample is missing throws
a `TypeError` (modelled `none`).  When the sample exists, the guarded
read of line 244 yields the sample itself. -/
def calibStep (P : CalibParams) (C : CalibCtx) (i : ℕ) (st : TrackerState)
    (prev : StepOut) : Option (TrackerState × StepOut) :=
  match jsGet? C.gyroData i with
  | none => none
  | some gyroI => some (calibStepCore P C i st prev gyroI)

/-- The main loop, iterated over sample indices `0, …, n-1`.  The
per-iteration pushes are accumulated most-recent-first (the final
result reverses them into chronological order). -/
def calibLoop (P : CalibParams) (C : CalibCtx) : ℕ → Option (TrackerState × List StepOut)
  | 0 => some (initState, [])
  | n + 1 =>
    (calibLoop P C n).bind fun sr =>
      (calibStep P C n sr.1 (sr.2.headD initStepOut)).map fun so => (so.1, so.2 :: sr.2)

/-! ### Result assembly (source lines 53-105, 697-712, 757) -/

/-- The output of the pipeline: one struct of parallel arrays, one
element per input sample (the field list of the source's result
literal, lines 53-105; `donX`/`roadDON` are present on the result
object the source builds even though the declared TS interface omits
them). -/
structure CalibrationResult where
  transformed : List Vector3D
  gravityHistory : List Vector3D
  forwardHistory : List Vector3D
  forwardChangeRate : List Frac
  confidence : List Frac
  gpsAccelDetected : List Bool
  turningDetected : List Bool
  forwardUpdateCount : List ℕ
  virtualForwardAccel : List Frac
  virtualLateralAccel : List Frac
  actualSampleRate : Frac
  phoneStable : List Bool
  vehicleStationary : List Bool
  vehicleMoving : List Bool
  magHeading : List Frac
  gpsSpeedRaw : List Frac
  gpsSpeedSmoothed : List Frac
  gpsSpeedFiltered : List Frac
  rawGPSAccel : List Frac
  gpsDeltaTime : List (Option Frac)
  gpsTimestamp : List (Option Frac)
  accelLinearX_measured : List Frac
  accelLinearY_measured : List Frac
  accelLinearZ_measured : List Frac
  accelY_measured : List Frac
  accelY_fromGyro : List Frac
  accelY_fromMag : List Frac
  gyroZ_measured : List Frac
  gyroZ_fromAccel : List Frac
  gyroZ_fromMag : List Frac
  heading_measured : List Frac
  heading_fromAccel : List Frac
  heading_fromGyro : List Frac
  accelFilteredX : List Frac
  accelFilteredY : List Frac
  accelFilteredZ : List Frac
  gyroFilteredX : List Frac
  gyroFilteredY : List Frac
  gyroFilteredZ : List Frac
  gravityUpdating : List Bool
  xPrimeFiltered : List Frac
  yPrimeFiltered : List Frac
  zPrimeFiltered : List Frac
  danX : List Frac
  roadDAN : List Frac
  roadDANSegments : List RoadDANSegment
  donX : List Frac
  roadDON : List Frac

/-- Source lines 705-712: the actual sample rate from the first and
last accelerometer timestamps (JS truthiness of a timestamp — absent
or zero — disables the computation; initial value 60). -/
def actualSampleRateOf (accelData : List Vector3D) : Frac :=
  if 1 < accelData.length ∧ ¬ Frac.feq (accelData.headD v3Zero).timestamp f0 ∧
      ¬ Frac.feq (accelData.getLastD v3Zero).timestamp f0 then
    let totalTimeSeconds :=
      ((accelData.getLastD v3Zero).timestamp.sub (accelData.headD v3Zero).timestamp).div
        (Frac.fi 1000)
    if Frac.flt f0 totalTimeSeconds then (Frac.fi (accelData.length - 1)).div totalTimeSeconds
    else Frac.fi 60
  else Frac.fi 60

/-- Assemble the result object from the (reversed) per-iteration
pushes. -/
def finalizeResult (accelData : List Vector3D) (outs : List StepOut) : CalibrationResult :=
  let chron := outs.reverse
  { transformed := chron.map (·.transformed)
    gravityHistory := chron.map (·.gravityHistory)
    forwardHistory := chron.map (·.forwardHistory)
    forwardChangeRate := chron.map (·.forwardChangeRate)
    confidence := chron.map (·.confidence)
    gpsAccelDetected := chron.map (·.gpsAccelDetected)
    turningDetected := chron.map (·.turningDetected)
    forwardUpdateCount := chron.map (·.forwardUpdateCount)
    virtualForwardAccel := chron.map (·.virtualForwardAccel)
    virtualLateralAccel := chron.map (·.virtualLateralAccel)
    actualSampleRate := actualSampleRateOf accelData
    phoneStable := chron.map (·.phoneStable)
    vehicleStationary := chron.map (·.vehicleStationary)
    vehicleMoving := chron.map (·.vehicleMoving)
    magHeading := chron.map (·.magHeading)
    gpsSpeedRaw := chron.map (·.gpsSpeedRaw)
    gpsSpeedSmoothed := chron.map (·.gpsSpeedSmoothed)
    gpsSpeedFiltered := chron.map (·.gpsSpeedFiltered)
    rawGPSAccel := chron.map (·.rawGPSAccel)
    gpsDeltaTime := chron.map (·.gpsDeltaTime)
    gpsTimestamp := chron.map (·.gpsTimestamp)
    accelLinearX_measured := chron.map (·.accelLinearX_measured)
    accelLinearY_measured := chron.map (·.accelLinearY_measured)
    accelLinearZ_measured := chron.map (·.accelLinearZ_measured)
    accelY_measured := chron.map (·.accelY_measured)
    accelY_fromGyro := chron.map (·.accelY_fromGyro)
    accelY_fromMag := chron.map (·.accelY_fromMag)
    gyroZ_measured := chron.map (·.gyroZ_measured)
    gyroZ_fromAccel := chron.map (·.gyroZ_fromAccel)
    gyroZ_fromMag := chron.map (·.gyroZ_fromMag)
    heading_measured := chron.map (·.heading_measured)
    heading_fromAccel := chron.map (·.heading_fromAccel)
    heading_fromGyro := chron.map (·.heading_fromGyro)
    accelFilteredX := chron.map (·.accelFilteredX)
    accelFilteredY := chron.map (·.accelFilteredY)
    accelFilteredZ := chron.map (·.accelFilteredZ)
    gyroFilteredX := chron.map (·.gyroFilteredX)
    gyroFilteredY := chron.map (·.gyroFilteredY)
    gyroFilteredZ := chron.map (·.gyroFilteredZ)
    gravityUpdating := chron.map (·.gravityUpdating)
    xPrimeFiltered := chron.map (·.xPrimeFiltered)
    yPrimeFiltered := chron.map (·.yPrimeFiltered)
    zPrimeFiltered := chron.map (·.zPrimeFiltered)
    danX := chron.map (·.danX)
    roadDAN := chron.map (·.roadDAN)
    roadDANSegments := chron.filterMap (·.segment)
    donX := chron.map (·.donX)
    roadDON := chron.map (·.roadDON) }

/-- The GPS-derived context the source computes before the main loop
(lines 135-239), given the already-built `steppedRawGPS` array. -/
def mkCtx (accelData gyroData magData : List Vector3D) (gpsData : List GPSData)
    (gpsSpeedAlpha : Frac) (stepped : List Frac) : CalibCtx :=
  let smoothed := smoothedRawGPS gpsData
  let filtered := filteredRawGPS gpsSpeedAlpha gpsData
  let igpsSmoothed := interpolateGPSData smoothed accelData.length
  { accelData := accelData
    gyroData := gyroData
    magData := magData
    gpsData := gpsData
    interpolatedGPS := interpolateGPSData gpsData accelData.length
    interpolatedGPSSmoothed := igpsSmoothed
    interpolatedGPSFiltered := interpolateGPSData filtered accelData.length
    interpolatedRawGPSAccel := interpolatedRawGPSAccelList accelData.length igpsSmoothed
    steppedRawGPS := stepped
    interpolatedGPSDeltaTime :=
      steppedTo60Hz accelData.length (gpsDeltaTimeArray smoothed)
    interpolatedGPSTimestamp :=
      steppedTo60Hz accelData.length (gpsTimestampArray smoothed) }

def mkParams (alpha observerAlpha filterAlpha gpsSpeedAlpha danDecay : Frac) : CalibParams :=
  { alpha := alpha
    observerAlpha := observerAlpha
    filterAlpha := filterAlpha
    gpsSpeedAlpha := gpsSpeedAlpha
    danDecay := danDecay }

/-- `applyFloatingCalibration` (source lines 42-758).  `none` models a
thrown exception: the only throwing reads are the `steppedRawGPS`
construction (line 193, empty `gpsData` with non-empty `accelData`)
and the unguarded DON gyro read (line 666, `gyroData` shorter than
`accelData`); both discard the partially built result, so the order in
which the model checks them does not affect the returned value. -/
def applyFloatingCalibration (accelData gyroData magData : List Vector3D)
    (gpsData : List GPSData) (alpha observerAlpha filterAlpha gpsSpeedAlpha danDecay : Frac) :
    Option CalibrationResult :=
  match steppedRawGPS accelData.length gpsData with
  | none => none
  | some stepped =>
    (calibLoop (mkParams alpha observerAlpha filterAlpha gpsSpeedAlpha danDecay)
        (mkCtx accelData gyroData magData gpsData gpsSpeedAlpha stepped)
        accelData.length).map
      fun sr => finalizeResult accelData sr.2

/-- The source's default parameter values (line 47-51). -/
def defaultParams : CalibParams :=
  { alpha := Frac.fr 19 20
    observerAlpha := Frac.fr 1 20
    filterAlpha := Frac.fr 1 20
    gpsSpeedAlpha := Frac.fr 19 20
    danDecay := Frac.fr 19 20 }

/-- The result object as initialised before the loop (source lines
53-105): empty arrays, `actualSampleRate` 60. -/
def emptyResult : CalibrationResult :=
  { transformed := []
    gravityHistory := []
    forwardHistory := []
    forwardChangeRate := []
    confidence := []
    gpsAccelDetected := []
    turningDetected := []
    forwardUpdateCount := []
    virtualForwardAccel := []
    virtualLateralAccel := []
    actualSampleRate := Frac.fi 60
    phoneStable := []
    vehicleStationary := []
    vehicleMoving := []
    magHeading := []
    gpsSpeedRaw := []
    gpsSpeedSmoothed := []
    gpsSpeedFiltered := []
    rawGPSAccel := []
    gpsDeltaTime := []
    gpsTimestamp := []
    accelLinearX_measured := []
    accelLinearY_measured := []
    accelLinearZ_measured := []
    accelY_measured := []
    accelY_fromGyro := []
    accelY_fromMag := []
    gyroZ_measured := []
    gyroZ_fromAccel := []
    gyroZ_fromMag := []
    heading_measured := []
    heading_fromAccel := []
    heading_fromGyro := []
    accelFilteredX := []
    accelFilteredY := []
    accelFilteredZ := []
    gyroFilteredX := []
    gyroFilteredY := []
    gyroFilteredZ := []
    gravityUpdating := []
    xPrimeFiltered := []
    yPrimeFiltered := []
    zPrimeFiltered := []
    danX := []
    roadDAN := []
    roadDANSegments := []
    donX := []
    roadDON := [] }

/-! ### Histogram engine (`src/lib/calibration/histogram.ts`)

Embedded directly over `ℚ` (its claims need no kernel evaluation of
arithmetic).  The source always builds 100-bin histograms
(`createHistogram`); in-range bin reads are modelled with `getD`,
whose default is never hit on 100-bin histograms since the clamp
bounds the bin index by 99. -/

structure DANHistogram where
  bins : List ℚ
  totalSamples : ℚ
  minDAN : ℚ
  maxDAN : ℚ

structure PersistentHistogram extends DANHistogram where
  sessionCount : ℚ

/-- `Math.round` (round half toward +∞, JS semantics). -/
def jsRound (q : ℚ) : ℤ := ⌊q + 1 / 2⌋

/-- Source lines 35-51 (`getPercentile`): `NUM_BINS = 100`,
`MAX_DAN = 4.0`, `BIN_WIDTH = 0.04`; sums the bins strictly below the
value's bin plus half of its own bin. -/
def getPercentile (histogram : DANHistogram) (roadDAN : ℚ) : ℤ :=
  if histogram.totalSamples = 0 then 50
  else
    let clamped := max 0 (min roadDAN (4 - 1 / 1000))
    let targetBin := (⌊clamped / (4 / 100)⌋).toNat
    let samplesBelow := (histogram.bins.take targetBin).sum +
      histogram.bins.getD targetBin 0 / 2
    jsRound (samplesBelow / histogram.totalSamples * 100)

/-- Source lines 147-155 (`mergeHistogram`): element-wise bin addition
over the target's bin count, totals added, min/max widened,
`sessionCount` incremented. -/
def mergeHistogram (target : PersistentHistogram) (source : DANHistogram) :
    PersistentHistogram :=
  { bins := (List.range target.bins.length).map fun i =>
      target.bins.getD i 0 + source.bins.getD i 0
    totalSamples := target.totalSamples + source.totalSamples
    minDAN := min target.minDAN source.minDAN
    maxDAN := max target.maxDAN source.maxDAN
    sessionCount := target.sessionCount + 1 }

/-! ### Concrete inputs used by witnesses and counterexamples.

All are chosen so that every square root the pipeline takes is of a
perfect rational square, making the `Frac` run exactly equal to the
idealised real-arithmetic run. -/

/-- One all-zero accelerometer/gyro sample. -/
def exV0 : List Vector3D := [v3Zero]

/-- One all-zero GPS fix. -/
def exGps0 : List GPSData := [gpsZero]

def exRun0 : Option CalibrationResult :=
  applyFloatingCalibration exV0 exV0 [] exGps0 defaultParams.alpha defaultParams.observerAlpha
    defaultParams.filterAlpha defaultParams.gpsSpeedAlpha defaultParams.danDecay

/-- Two accelerometer samples, both `{0,0,8}`. -/
def ex2Accel : List Vector3D := [v3 f0 f0 (Frac.fi 8), v3 f0 f0 (Frac.fi 8)]

def ex2Gyro : List Vector3D := [v3Zero, v3Zero]

/-- Two GPS fixes: standstill, then 0.1 m/s — the backward difference
at sample 1 yields a smoothed virtual forward acceleration of 1.5
m/s², beyond the 0.2 m/s² gate. -/
def ex2Gps : List GPSData := [gpsZero, ⟨f0, f0, Frac.fr 1 10, f0, f0, f0⟩]

/-- Run with `alpha = 0.95`: gravity is still tiny (magnitude 0.02) at
sample 1 when forward learning first fires, so the orthogonalization
guard `gravity magnitude > 0.1` fails. -/
def ex2Run : Option CalibrationResult :=
  applyFloatingCalibration ex2Accel ex2Gyro [] ex2Gps (Frac.fr 19 20) f0 (Frac.fi 1)
    (Frac.fr 1 2) f0

/-- Same input with `alpha = 1/2`: gravity magnitude is 2 at sample 1,
the orthogonalization runs. -/
def ex2bRun : Option CalibrationResult :=
  applyFloatingCalibration ex2Accel ex2Gyro [] ex2Gps (Frac.fr 1 2) f0 (Frac.fi 1)
    (Frac.fr 1 2) f0

/-- 121 accelerometer samples, a unit z-spike exactly at the first
block boundary (index 60), zero elsewhere. -/
def ex4Accel : List Vector3D := (List.range 121).map fun i => v3 f0 f0 (if i = 60 then f1 else f0)

def ex4Gyro : List Vector3D := List.replicate 121 v3Zero

/-- Run with `alpha = 1` (raw-accel filter and gravity stay 0, so
`danX[i] = |accel[i]|` with `danDecay = 0`), `danDecay = 0`. -/
def ex4Run : Option CalibrationResult :=
  applyFloatingCalibration ex4Accel ex4Gyro [] exGps0 (Frac.fi 1) f0 (Frac.fi 1)
    (Frac.fr 1 2) f0

/-- Fold summation of a list of fractions. -/
def fsum (l : List Frac) : Frac := l.foldl Frac.add f0

/-- Two-sample/one-gyro input (the C6 length-mismatch scenario). -/
def ex6Run : Option CalibrationResult :=
  applyFloatingCalibration [v3Zero, v3Zero] [v3Zero] [] exGps0 defaultParams.alpha
    defaultParams.observerAlpha defaultParams.filterAlpha defaultParams.gpsSpeedAlpha
    defaultParams.danDecay

/-- Empty GPS with one accelerometer sample (the C3 scenario). -/
def ex3Run : Option CalibrationResult :=
  applyFloatingCalibration exV0 exV0 [] [] defaultParams.alpha defaultParams.observerAlpha
    defaultParams.filterAlpha defaultParams.gpsSpeedAlpha defaultParams.danDecay

/-- A 100-bin histogram with every bin count 1 (histogram witnesses). -/
def exHist : DANHistogram :=
  { bins := List.replicate 100 1, totalSamples := 100, minDAN := 0, maxDAN := 4 }

def exPersistent : PersistentHistogram :=
  { bins := List.replicate 100 1, totalSamples := 100, minDAN := 0, maxDAN := 4,
    sessionCount := 1 }

/-- The link between the loop state after an iteration and the values
that same iteration pushed: the state's gravity, forward vector,
accel-filter scalars and update counter are exactly what was last
snapshotted into the history arrays. -/
def LinkSP (st : TrackerState) (o : StepOut) : Prop :=
  st.gravity.x = o.gravityHistory.x ∧ st.gravity.y = o.gravityHistory.y ∧
  st.gravity.z = o.gravityHistory.z ∧
  st.accelFilteredX = o.accelFilteredX ∧ st.accelFilteredY = o.accelFilteredY ∧
  st.accelFilteredZ = o.accelFilteredZ ∧
  st.forward.x = o.forwardHistory.x ∧ st.forward.y = o.forwardHistory.y ∧
  st.forward.z = o.forwardHistory.z ∧
  st.totalForwardUpdates = o.forwardUpdateCount

/-- Start index of the block-accumulation window that is open after
`n` loop iterations: the source seeds the accumulator with sample 0,
accumulates samples `1..59`, and at every boundary `i = 60k` (k ≥ 1)
resets to an *empty* accumulator — the boundary sample itself is never
accumulated, so the window after the first boundary starts at
`60k + 1`. -/
def winStart (n : ℕ) : ℕ := if n ≤ 60 then 0 else 60 * ((n - 1) / 60) + 1

/-- The block-accumulator invariant after `n` iterations whose
chronological pushes are `chron`: the DAN and DON accumulators hold
the sum (and count) of the `danX`/`donX` values in the currently open
window. -/
def DanInv (st : TrackerState) (chron : List StepOut) : Prop :=
  st.danAccumulator.toRat = ((chron.map fun o => o.danX.toRat).drop (winStart chron.length)).sum ∧
  st.danSampleCount.toRat = ((chron.length - winStart chron.length : ℕ) : ℚ) ∧
  st.donAccumulator.toRat = ((chron.map fun o => o.donX.toRat).drop (winStart chron.length)).sum ∧
  st.donSampleCount.toRat = ((chron.length - winStart chron.length : ℕ) : ℚ)

/-- The result of a completing call (`emptyResult` as the irrelevant
default for throwing calls; every theorem using `calibOf` assumes the
call completes). -/
def calibOf (accelData gyroData magData : List Vector3D) (gpsData : List GPSData)
    (alpha observerAlpha filterAlpha gpsSpeedAlpha danDecay : Frac) : CalibrationResult :=
  (applyFloatingCalibration accelData gyroData magData gpsData alpha observerAlpha
    filterAlpha gpsSpeedAlpha danDecay).getD emptyResult

/-- The result of the one-sample all-zero run with the source's
default parameters (used by witnesses). -/
def calib0 : CalibrationResult :=
  calibOf exV0 exV0 [] exGps0 (Frac.fr 19 20) (Frac.fr 1 20) (Frac.fr 1 20) (Frac.fr 19 20)
    (Frac.fr 19 20)

/-! ## Theorems

First the semantic layer: `Frac.toRat` is a homomorphism for every
operation used by the embedding, and the cross-multiplication
predicates mean exactly the rational comparisons. -/

namespace Frac

theorem den_cast_ne (a : Frac) : (a.den : ℚ) ≠ 0 :=
  Int.cast_ne_zero.mpr (ne_of_gt a.dpos)

theorem den_cast_pos (a : Frac) : (0 : ℚ) < (a.den : ℚ) := by
  exact_mod_cast a.dpos

theorem toRat_norm (n d : ℤ) (hd : 0 < d) : (norm n d hd).toRat = (n : ℚ) / (d : ℚ) := by
  have hne : Int.gcd n d ≠ 0 := by
    intro h
    have h2 := (Int.gcd_eq_zero_iff.mp h).2
    omega
  have hg0 : (0 : ℤ) < (Int.gcd n d : ℤ) := by
    exact_mod_cast Nat.pos_of_ne_zero hne
  obtain ⟨n2, hn⟩ := (Int.gcd_dvd_left : (Int.gcd n d : ℤ) ∣ n)
  obtain ⟨d2, hdd⟩ := (Int.gcd_dvd_right : (Int.gcd n d : ℤ) ∣ d)
  have hGne : ((Int.gcd n d : ℤ) : ℚ) ≠ 0 := Int.cast_ne_zero.mpr (ne_of_gt hg0)
  have e1 : n / (Int.gcd n d : ℤ) = n2 := Int.ediv_eq_of_eq_mul_right (ne_of_gt hg0) hn
  have e2 : d / (Int.gcd n d : ℤ) = d2 := Int.ediv_eq_of_eq_mul_right (ne_of_gt hg0) hdd
  have hnum : (norm n d hd).num = n / (Int.gcd n d : ℤ) := rfl
  have hden : (norm n d hd).den = d / (Int.gcd n d : ℤ) := rfl
  unfold toRat
  rw [hnum, hden, e1, e2]
  generalize (Int.gcd n d : ℤ) = G at hn hdd hGne
  rw [hn, hdd]
  push_cast
  rw [mul_div_mul_left _ _ hGne]

theorem toRat_fi (n : ℤ) : (fi n).toRat = (n : ℚ) := by
  unfold fi toRat
  norm_num

theorem toRat_fr (n d : ℤ) (hd : 0 < d) : (fr n d).toRat = (n : ℚ) / (d : ℚ) := by
  unfold fr toRat
  rw [dif_pos hd]

theorem toRat_add (a b : Frac) : (a.add b).toRat = a.toRat + b.toRat := by
  unfold add
  rw [toRat_norm]
  unfold toRat
  push_cast
  rw [div_add_div _ _ (den_cast_ne a) (den_cast_ne b)]
  ring

theorem toRat_neg (a : Frac) : a.neg.toRat = -a.toRat := by
  unfold neg toRat
  push_cast
  ring

theorem toRat_sub (a b : Frac) : (a.sub b).toRat = a.toRat - b.toRat := by
  unfold sub
  rw [toRat_add, toRat_neg]
  ring

theorem toRat_mul (a b : Frac) : (a.mul b).toRat = a.toRat * b.toRat := by
  unfold mul
  rw [toRat_norm]
  unfold toRat
  push_cast
  rw [div_mul_div_comm]

theorem toRat_div (a b : Frac) : (a.div b).toRat = a.toRat / b.toRat := by
  unfold div
  by_cases h : 0 < b.num
  · rw [dif_pos h, toRat_norm]
    unfold toRat
    have hb : (b.num : ℚ) ≠ 0 := Int.cast_ne_zero.mpr (ne_of_gt h)
    field_simp
  · rw [dif_neg h]
    by_cases h2 : b.num < 0
    · rw [dif_pos h2, toRat_norm]
      unfold toRat
      have hb : (b.num : ℚ) ≠ 0 := Int.cast_ne_zero.mpr (ne_of_lt h2)
      field_simp
    · rw [dif_neg h2]
      have hb0 : b.num = 0 := by omega
      have : b.toRat = 0 := by unfold toRat; rw [hb0]; simp
      rw [this, div_zero, toRat_fi]
      simp

theorem toRat_fabs (a : Frac) : a.fabs.toRat = |a.toRat| := by
  unfold fabs toRat
  rw [abs_div, abs_of_pos (den_cast_pos a)]
  push_cast
  ring_nf

theorem flt_iff (a b : Frac) : flt a b ↔ a.toRat < b.toRat := by
  unfold flt toRat
  rw [div_lt_div_iff₀ (den_cast_pos a) (den_cast_pos b)]
  exact_mod_cast Iff.rfl

theorem fle_iff (a b : Frac) : fle a b ↔ a.toRat ≤ b.toRat := by
  unfold fle toRat
  rw [div_le_div_iff₀ (den_cast_pos a) (den_cast_pos b)]
  exact_mod_cast Iff.rfl

theorem feq_iff (a b : Frac) : feq a b ↔ a.toRat = b.toRat := by
  unfold feq toRat
  rw [div_eq_div_iff (den_cast_ne a) (den_cast_ne b)]
  exact_mod_cast Iff.rfl

theorem toRat_fmin (a b : Frac) : (a.fmin b).toRat = min a.toRat b.toRat := by
  unfold fmin
  by_cases h : fle a b
  · rw [if_pos h, min_eq_left ((fle_iff a b).mp h)]
  · rw [if_neg h]
    have := (fle_iff a b).not.mp h
    rw [min_eq_right (le_of_lt (lt_of_not_le this))]

theorem toRat_fmax (a b : Frac) : (a.fmax b).toRat = max a.toRat b.toRat := by
  unfold fmax
  by_cases h : fle a b
  · rw [if_pos h, max_eq_right ((fle_iff a b).mp h)]
  · rw [if_neg h]
    have := (fle_iff a b).not.mp h
    rw [max_eq_left (le_of_lt (lt_of_not_le this))]

theorem toRat_f0 : f0.toRat = 0 := by simp [f0, toRat_fi]

theorem toRat_f1 : f1.toRat = 1 := by simp [f1, toRat_fi]

end Frac

/-! ### List access helpers -/

theorem getD_map_of_lt {α β : Type} (f : α → β) (l : List α) (i : ℕ) (h : i < l.length)
    (d : α) (d2 : β) : (l.map f).getD i d2 = f (l.getD i d) := by
  rw [List.getD_eq_getElem?_getD, List.getD_eq_getElem?_getD, List.getElem?_map,
    List.getElem?_eq_getElem h]
  simp

theorem getD_append_left {α : Type} (l l2 : List α) (i : ℕ) (h : i < l.length) (d : α) :
    (l ++ l2).getD i d = l.getD i d := by
  rw [List.getD_eq_getElem?_getD, List.getD_eq_getElem?_getD,
    List.getElem?_append_left h]

theorem getD_append_last {α : Type} (l : List α) (x : α) (d : α) :
    (l ++ [x]).getD l.length d = x := by
  rw [List.getD_eq_getElem?_getD]
  rw [List.getElem?_append_right (le_refl _)]
  simp

/-! ### Trace infrastructure for the main loop -/

theorem calibLoop_len (P : CalibParams) (C : CalibCtx) :
    ∀ n st outs, calibLoop P C n = some (st, outs) → outs.length = n := by
  intro n
  induction n with
  | zero =>
    intro st outs h
    simp only [calibLoop, Option.some_inj, Prod.mk.injEq] at h
    rw [← h.2]
    rfl
  | succ n ih =>
    intro st outs h
    simp only [calibLoop] at h
    obtain ⟨sr, hsr, h2⟩ := Option.bind_eq_some.mp h
    obtain ⟨so, hso, h3⟩ := Option.map_eq_some'.mp h2
    have hlen := ih sr.1 sr.2 (by rw [hsr])
    have : outs = so.2 :: sr.2 := by
      rw [← (Prod.mk.injEq _ _ _ _).mp h3 |>.2]
    rw [this]
    simp [hlen]

theorem calibLoop_get (P : CalibParams) (C : CalibCtx) :
    ∀ n st outs, calibLoop P C n = some (st, outs) → ∀ i, i < n →
    ∃ sti outsi sti1,
      calibLoop P C i = some (sti, outsi) ∧
      calibStep P C i sti (outsi.headD initStepOut) =
        some (sti1, outs.reverse.getD i initStepOut) ∧
      calibLoop P C (i + 1) =
        some (sti1, (outs.reverse.getD i initStepOut) :: outsi) := by
  intro n
  induction n with
  | zero => intro st outs h i hi; omega
  | succ n ih =>
    intro st outs h i hi
    have hstep := h
    simp only [calibLoop] at hstep
    obtain ⟨sr, hsr, h2⟩ := Option.bind_eq_some.mp hstep
    obtain ⟨so, hso, h3⟩ := Option.map_eq_some'.mp h2
    obtain ⟨hst, houts⟩ := (Prod.mk.injEq _ _ _ _).mp h3
    have hlen : sr.2.length = n := calibLoop_len P C n sr.1 sr.2 (by rw [hsr])
    have hrev : outs.reverse = sr.2.reverse ++ [so.2] := by
      rw [← houts, List.reverse_cons]
    rcases Nat.lt_succ_iff_lt_or_eq.mp hi with hlt | heq
    · obtain ⟨sti, outsi, sti1, g1, g2, g3⟩ := ih sr.1 sr.2 (by rw [hsr]) i hlt
      have hi2 : i < sr.2.reverse.length := by simp [hlen]; omega
      refine ⟨sti, outsi, sti1, g1, ?_, ?_⟩
      · rw [hrev, getD_append_left _ _ _ hi2]
        exact g2
      · rw [hrev, getD_append_left _ _ _ hi2]
        exact g3
    · subst heq
      have hgd : outs.reverse.getD i initStepOut = so.2 := by
        rw [hrev, ← hlen, ← List.length_reverse]
        exact getD_append_last _ _ _
      refine ⟨sr.1, sr.2, so.1, by rw [hsr], ?_, ?_⟩
      · rw [hgd, hso]
      · rw [hgd]
        simp only [calibLoop]
        rw [hsr]
        simp only [Option.some_bind]
        rw [hso]
        simp only [Option.map_some']

theorem calibLoop_head (P : CalibParams) (C : CalibCtx) (n : ℕ) (st : TrackerState)
    (outs : List StepOut) (h : calibLoop P C n = some (st, outs)) (i : ℕ) (hi : i < n)
    (sti : TrackerState) (outsi : List StepOut)
    (hLi : calibLoop P C i = some (sti, outsi)) :
    outsi.headD initStepOut =
      (if i = 0 then initStepOut else outs.reverse.getD (i - 1) initStepOut) := by
  cases i with
  | zero =>
    simp only [calibLoop, Option.some_inj, Prod.mk.injEq] at hLi
    rw [← hLi.2]
    simp
  | succ j =>
    obtain ⟨stj, outsj, stj1, g1, g2, g3⟩ := calibLoop_get P C n st outs h j (by omega)
    rw [hLi] at g3
    obtain ⟨e1, e2⟩ := (Prod.mk.injEq _ _ _ _).mp (Option.some_inj.mp g3)
    rw [e2]
    simp

theorem linkSP_init : LinkSP initState initStepOut := by
  refine ⟨rfl, rfl, rfl, rfl, rfl, rfl, rfl, rfl, rfl, rfl⟩

theorem linkSP_step (P : CalibParams) (C : CalibCtx) (i : ℕ) (st : TrackerState)
    (prev : StepOut) (g : Vector3D) :
    LinkSP (calibStepCore P C i st prev g).1 (calibStepCore P C i st prev g).2 := by
  refine ⟨rfl, rfl, rfl, rfl, rfl, rfl, rfl, rfl, rfl, rfl⟩

theorem calibLoop_link (P : CalibParams) (C : CalibCtx) :
    ∀ n st outs, calibLoop P C n = some (st, outs) →
    LinkSP st (outs.headD initStepOut) := by
  intro n
  cases n with
  | zero =>
    intro st outs h
    simp only [calibLoop, Option.some_inj, Prod.mk.injEq] at h
    rw [← h.1, ← h.2]
    exact linkSP_init
  | succ n =>
    intro st outs h
    simp only [calibLoop] at h
    obtain ⟨sr, hsr, h2⟩ := Option.bind_eq_some.mp h
    obtain ⟨so, hso, h3⟩ := Option.map_eq_some'.mp h2
    obtain ⟨hst, houts⟩ := (Prod.mk.injEq _ _ _ _).mp h3
    unfold calibStep at hso
    cases hg : jsGet? C.gyroData n with
    | none => rw [hg] at hso; simp at hso
    | some gy =>
      rw [hg] at hso
      simp only [Option.some_inj] at hso
      rw [← hst, ← houts, ← hso]
      simp only [List.headD_cons]
      exact linkSP_step P C n sr.1 (sr.2.headD initStepOut) gy

/-- Decompose a completing call of `applyFloatingCalibration` into its
stepped-GPS array, final loop state and per-iteration pushes. -/
theorem apply_elim (accelData gyroData magData : List Vector3D) (gpsData : List GPSData)
    (alpha observerAlpha filterAlpha gpsSpeedAlpha danDecay : Frac)
    (hc : (applyFloatingCalibration accelData gyroData magData gpsData alpha observerAlpha
      filterAlpha gpsSpeedAlpha danDecay).isSome = true) :
    ∃ stepped st outs,
      steppedRawGPS accelData.length gpsData = some stepped ∧
      calibLoop (mkParams alpha observerAlpha filterAlpha gpsSpeedAlpha danDecay)
        (mkCtx accelData gyroData magData gpsData gpsSpeedAlpha stepped)
        accelData.length = some (st, outs) ∧
      (applyFloatingCalibration accelData gyroData magData gpsData alpha observerAlpha
        filterAlpha gpsSpeedAlpha danDecay).getD emptyResult = finalizeResult accelData outs := by
  cases hs : steppedRawGPS accelData.length gpsData with
  | none =>
    exfalso
    unfold applyFloatingCalibration at hc
    rw [hs] at hc
    simp at hc
  | some stepped =>
    have hred : applyFloatingCalibration accelData gyroData magData gpsData alpha observerAlpha
        filterAlpha gpsSpeedAlpha danDecay =
        (calibLoop (mkParams alpha observerAlpha filterAlpha gpsSpeedAlpha danDecay)
          (mkCtx accelData gyroData magData gpsData gpsSpeedAlpha stepped)
          accelData.length).map fun sr => finalizeResult accelData sr.2 := by
      unfold applyFloatingCalibration
      rw [hs]
    rw [hred] at hc
    cases hl : calibLoop (mkParams alpha observerAlpha filterAlpha gpsSpeedAlpha danDecay)
        (mkCtx accelData gyroData magData gpsData gpsSpeedAlpha stepped) accelData.length with
    | none => rw [hl] at hc; simp at hc
    | some sr =>
      refine ⟨stepped, sr.1, sr.2, rfl, by rw [hl], ?_⟩
      rw [hred, hl]
      simp

/-- The step wrapper succeeds exactly on present gyro samples, and
then computes `calibStepCore` on that sample. -/
theorem calibStep_elim (P : CalibParams) (C : CalibCtx) (i : ℕ) (st : TrackerState)
    (prev : StepOut) (st2 : TrackerState) (o : StepOut)
    (h : calibStep P C i st prev = some (st2, o)) :
    ∃ gy, jsGet? C.gyroData i = some gy ∧
      st2 = (calibStepCore P C i st prev gy).1 ∧ o = (calibStepCore P C i st prev gy).2 := by
  unfold calibStep at h
  cases hg : jsGet? C.gyroData i with
  | none => rw [hg] at h; simp at h
  | some gy =>
    rw [hg] at h
    simp only [Option.some_inj] at h
    obtain ⟨e1, e2⟩ := (Prod.mk.injEq _ _ _ _).mp h.symm
    exact ⟨gy, rfl, e1, e2⟩

/-! ### Per-step facts (all proved against `calibStepCore`) -/

theorem stepCore_gravityUpdating_not (P : CalibParams) (C : CalibCtx) (i : ℕ)
    (st : TrackerState) (prev : StepOut) (g : Vector3D) :
    (calibStepCore P C i st prev g).2.gravityUpdating =
      !(calibStepCore P C i st prev g).2.gpsAccelDetected :=
  decide_not

theorem stepCore_vfa (P : CalibParams) (C : CalibCtx) (i : ℕ) (st : TrackerState)
    (prev : StepOut) (g : Vector3D) :
    (calibStepCore P C i st prev g).2.virtualForwardAccel =
      C.interpolatedRawGPSAccel.getD i f0 := rfl

theorem stepCore_accelFiltered (P : CalibParams) (C : CalibCtx) (i : ℕ) (st : TrackerState)
    (prev : StepOut) (g : Vector3D) :
    (calibStepCore P C i st prev g).2.accelFilteredX =
      emaOldNew P.alpha st.accelFilteredX (C.accelData.getD i v3Zero).x ∧
    (calibStepCore P C i st prev g).2.accelFilteredY =
      emaOldNew P.alpha st.accelFilteredY (C.accelData.getD i v3Zero).y ∧
    (calibStepCore P C i st prev g).2.accelFilteredZ =
      emaOldNew P.alpha st.accelFilteredZ (C.accelData.getD i v3Zero).z :=
  ⟨rfl, rfl, rfl⟩

theorem stepCore_gravityHistory (P : CalibParams) (C : CalibCtx) (i : ℕ) (st : TrackerState)
    (prev : StepOut) (g : Vector3D) :
    (calibStepCore P C i st prev g).2.gravityHistory.x =
      (if Frac.flt (Frac.fr 1 5) (C.interpolatedRawGPSAccel.getD i f0).fabs
       then st.gravity
       else v3 (emaOldNew P.alpha st.gravity.x
                  (emaOldNew P.alpha st.accelFilteredX (C.accelData.getD i v3Zero).x))
               (emaOldNew P.alpha st.gravity.y
                  (emaOldNew P.alpha st.accelFilteredY (C.accelData.getD i v3Zero).y))
               (emaOldNew P.alpha st.gravity.z
                  (emaOldNew P.alpha st.accelFilteredZ (C.accelData.getD i v3Zero).z))).x ∧
    (calibStepCore P C i st prev g).2.gravityHistory.y =
      (if Frac.flt (Frac.fr 1 5) (C.interpolatedRawGPSAccel.getD i f0).fabs
       then st.gravity
       else v3 (emaOldNew P.alpha st.gravity.x
                  (emaOldNew P.alpha st.accelFilteredX (C.accelData.getD i v3Zero).x))
               (emaOldNew P.alpha st.gravity.y
                  (emaOldNew P.alpha st.accelFilteredY (C.accelData.getD i v3Zero).y))
               (emaOldNew P.alpha st.gravity.z
                  (emaOldNew P.alpha st.accelFilteredZ (C.accelData.getD i v3Zero).z))).y ∧
    (calibStepCore P C i st prev g).2.gravityHistory.z =
      (if Frac.flt (Frac.fr 1 5) (C.interpolatedRawGPSAccel.getD i f0).fabs
       then st.gravity
       else v3 (emaOldNew P.alpha st.gravity.x
                  (emaOldNew P.alpha st.accelFilteredX (C.accelData.getD i v3Zero).x))
               (emaOldNew P.alpha st.gravity.y
                  (emaOldNew P.alpha st.accelFilteredY (C.accelData.getD i v3Zero).y))
               (emaOldNew P.alpha st.gravity.z
                  (emaOldNew P.alpha st.accelFilteredZ (C.accelData.getD i v3Zero).z))).z :=
  ⟨rfl, rfl, rfl⟩

/-- Gravity-gating per step: with the state linked to the previous
pushes, sample `i`'s gravity snapshot equals the EMA update of the
previous snapshot with the current filtered accel exactly when the
GPS-acceleration gate is off, and is the unchanged previous snapshot
when the gate is on. -/
theorem stepCore_C1 (P : CalibParams) (C : CalibCtx) (i : ℕ) (st : TrackerState)
    (prev : StepOut) (g : Vector3D) (h : LinkSP st prev) :
    (¬ Frac.flt (Frac.fr 1 5) (calibStepCore P C i st prev g).2.virtualForwardAccel.fabs →
      (calibStepCore P C i st prev g).2.gravityHistory.x =
        emaOldNew P.alpha prev.gravityHistory.x (calibStepCore P C i st prev g).2.accelFilteredX ∧
      (calibStepCore P C i st prev g).2.gravityHistory.y =
        emaOldNew P.alpha prev.gravityHistory.y (calibStepCore P C i st prev g).2.accelFilteredY ∧
      (calibStepCore P C i st prev g).2.gravityHistory.z =
        emaOldNew P.alpha prev.gravityHistory.z (calibStepCore P C i st prev g).2.accelFilteredZ) ∧
    (Frac.flt (Frac.fr 1 5) (calibStepCore P C i st prev g).2.virtualForwardAccel.fabs →
      (calibStepCore P C i st prev g).2.gravityHistory.x = prev.gravityHistory.x ∧
      (calibStepCore P C i st prev g).2.gravityHistory.y = prev.gravityHistory.y ∧
      (calibStepCore P C i st prev g).2.gravityHistory.z = prev.gravityHistory.z) := by
  obtain ⟨h1, h2, h3, h4, h5, h6, -⟩ := h
  obtain ⟨gx, gy, gz⟩ := stepCore_gravityHistory P C i st prev g
  obtain ⟨ax, ay, az⟩ := stepCore_accelFiltered P C i st prev g
  have hv := stepCore_vfa P C i st prev g
  constructor
  · intro hns
    rw [hv] at hns
    rw [gx, gy, gz, if_neg hns, ax, ay, az, ← h1, ← h2, ← h3]
    exact ⟨rfl, rfl, rfl⟩
  · intro hsig
    rw [hv] at hsig
    rw [gx, gy, gz, if_pos hsig]
    exact ⟨h1, h2, h3⟩

/-- The workhorse for per-sample claims: a completing call's output at
index `i` is the push of `calibStepCore` at `i`, fed the previous
iteration's push and a state linked to it. -/
theorem apply_step_at (accelData gyroData magData : List Vector3D) (gpsData : List GPSData)
    (alpha observerAlpha filterAlpha gpsSpeedAlpha danDecay : Frac) (i : ℕ)
    (hi : i < accelData.length)
    (hc : (applyFloatingCalibration accelData gyroData magData gpsData alpha observerAlpha
      filterAlpha gpsSpeedAlpha danDecay).isSome = true) :
    ∃ (C : CalibCtx) (outs : List StepOut) (sti : TrackerState) (gy : Vector3D),
      C.accelData = accelData ∧
      jsGet? gyroData i = some gy ∧
      outs.length = accelData.length ∧
      calibOf accelData gyroData magData gpsData alpha observerAlpha filterAlpha
        gpsSpeedAlpha danDecay = finalizeResult accelData outs ∧
      LinkSP sti (if i = 0 then initStepOut else outs.reverse.getD (i - 1) initStepOut) ∧
      outs.reverse.getD i initStepOut =
        (calibStepCore (mkParams alpha observerAlpha filterAlpha gpsSpeedAlpha danDecay) C i
          sti (if i = 0 then initStepOut else outs.reverse.getD (i - 1) initStepOut) gy).2 := by
  obtain ⟨stepped, st, outs, hs, hl, hres⟩ := apply_elim accelData gyroData magData gpsData
    alpha observerAlpha filterAlpha gpsSpeedAlpha danDecay hc
  obtain ⟨sti, outsi, sti1, g1, g2, g3⟩ := calibLoop_get _ _ _ _ _ hl i hi
  have hhead := calibLoop_head _ _ _ _ _ hl i hi sti outsi g1
  obtain ⟨gy, hgy, e1, e2⟩ := calibStep_elim _ _ _ _ _ _ _ g2
  have hlink := calibLoop_link _ _ i sti outsi g1
  rw [hhead] at hlink e2
  exact ⟨mkCtx accelData gyroData magData gpsData gpsSpeedAlpha stepped, outs, sti, gy,
    rfl, hgy, calibLoop_len _ _ _ _ _ hl, hres, hlink, e2⟩

/-- C10: in every completing run, `gravityUpdating[i]` is the exact
complement of `gpsAccelDetected[i]` — the gravity filter runs on
exactly the samples with no significant GPS acceleration. -/
theorem C10_gravityUpdating_complements (accelData gyroData magData : List Vector3D)
    (gpsData : List GPSData) (alpha observerAlpha filterAlpha gpsSpeedAlpha danDecay : Frac)
    (i : ℕ) (hi : i < accelData.length)
    (hc : (applyFloatingCalibration accelData gyroData magData gpsData alpha observerAlpha
      filterAlpha gpsSpeedAlpha danDecay).isSome = true) :
    (calibOf accelData gyroData magData gpsData alpha observerAlpha filterAlpha gpsSpeedAlpha
      danDecay).gravityUpdating.getD i false =
    !((calibOf accelData gyroData magData gpsData alpha observerAlpha filterAlpha gpsSpeedAlpha
      danDecay).gpsAccelDetected.getD i false) := by
  obtain ⟨C, outs, sti, gy, hCa, hgy, hlen, hres, hlink, hout⟩ := apply_step_at accelData
    gyroData magData gpsData alpha observerAlpha filterAlpha gpsSpeedAlpha danDecay i hi hc
  have hi2 : i < outs.reverse.length := by simp [hlen]; exact hi
  have b1 : (finalizeResult accelData outs).gravityUpdating.getD i false =
      (outs.reverse.getD i initStepOut).gravityUpdating :=
    getD_map_of_lt _ _ _ hi2 _ _
  have b2 : (finalizeResult accelData outs).gpsAccelDetected.getD i false =
      (outs.reverse.getD i initStepOut).gpsAccelDetected :=
    getD_map_of_lt _ _ _ hi2 _ _
  rw [hres, b1, b2, hout]
  exact stepCore_gravityUpdating_not _ _ _ _ _ _

/-- Witness for C10 at a concrete completing input. -/
theorem C10_witness :
    (0 < exV0.length ∧
      (applyFloatingCalibration exV0 exV0 [] exGps0 (Frac.fr 19 20) (Frac.fr 1 20)
        (Frac.fr 1 20) (Frac.fr 19 20) (Frac.fr 19 20)).isSome = true) ∧
    (calibOf exV0 exV0 [] exGps0 (Frac.fr 19 20) (Frac.fr 1 20) (Frac.fr 1 20) (Frac.fr 19 20)
      (Frac.fr 19 20)).gravityUpdating.getD 0 false =
    !((calibOf exV0 exV0 [] exGps0 (Frac.fr 19 20) (Frac.fr 1 20) (Frac.fr 1 20)
      (Frac.fr 19 20) (Frac.fr 19 20)).gpsAccelDetected.getD 0 false) :=
  ⟨⟨by decide, by decide⟩,
    C10_gravityUpdating_complements exV0 exV0 [] exGps0 (Frac.fr 19 20) (Frac.fr 1 20)
      (Frac.fr 1 20) (Frac.fr 19 20) (Frac.fr 19 20) 0 (by decide) (by decide)⟩

/-- C1: in every completing run and at every sample `i`, the gravity
snapshot is the low-pass update `alpha*gravity + (1-alpha)*accelFiltered`
(componentwise, with the alpha-filtered accelerometer signal of the
same sample) exactly when `significantAccel` — defined as
`|virtualForwardAccel[i]| > 0.2` on the smoothed GPS-derived
acceleration channel — is false, and all three gravity components are
the unchanged previous snapshot when it is true. -/
theorem C1_gravity_gate (accelData gyroData magData : List Vector3D)
    (gpsData : List GPSData) (alpha observerAlpha filterAlpha gpsSpeedAlpha danDecay : Frac)
    (i : ℕ) (hi : i < accelData.length)
    (hc : (applyFloatingCalibration accelData gyroData magData gpsData alpha observerAlpha
      filterAlpha gpsSpeedAlpha danDecay).isSome = true) :
    (¬ Frac.flt (Frac.fr 1 5) ((calibOf accelData gyroData magData gpsData alpha observerAlpha
        filterAlpha gpsSpeedAlpha danDecay).virtualForwardAccel.getD i f0).fabs →
      ((calibOf accelData gyroData magData gpsData alpha observerAlpha filterAlpha gpsSpeedAlpha
          danDecay).gravityHistory.getD i v3Zero).x =
        emaOldNew alpha
          (if i = 0 then v3Zero else (calibOf accelData gyroData magData gpsData alpha
            observerAlpha filterAlpha gpsSpeedAlpha danDecay).gravityHistory.getD (i - 1)
            v3Zero).x
          ((calibOf accelData gyroData magData gpsData alpha observerAlpha filterAlpha
            gpsSpeedAlpha danDecay).accelFilteredX.getD i f0) ∧
      ((calibOf accelData gyroData magData gpsData alpha observerAlpha filterAlpha gpsSpeedAlpha
          danDecay).gravityHistory.getD i v3Zero).y =
        emaOldNew alpha
          (if i = 0 then v3Zero else (calibOf accelData gyroData magData gpsData alpha
            observerAlpha filterAlpha gpsSpeedAlpha danDecay).gravityHistory.getD (i - 1)
            v3Zero).y
          ((calibOf accelData gyroData magData gpsData alpha observerAlpha filterAlpha
            gpsSpeedAlpha danDecay).accelFilteredY.getD i f0) ∧
      ((calibOf accelData gyroData magData gpsData alpha observerAlpha filterAlpha gpsSpeedAlpha
          danDecay).gravityHistory.getD i v3Zero).z =
        emaOldNew alpha
          (if i = 0 then v3Zero else (calibOf accelData gyroData magData gpsData alpha
            observerAlpha filterAlpha gpsSpeedAlpha danDecay).gravityHistory.getD (i - 1)
            v3Zero).z
          ((calibOf accelData gyroData magData gpsData alpha observerAlpha filterAlpha
            gpsSpeedAlpha danDecay).accelFilteredZ.getD i f0)) ∧
    (Frac.flt (Frac.fr 1 5) ((calibOf accelData gyroData magData gpsData alpha observerAlpha
        filterAlpha gpsSpeedAlpha danDecay).virtualForwardAccel.getD i f0).fabs →
      ((calibOf accelData gyroData magData gpsData alpha observerAlpha filterAlpha gpsSpeedAlpha
          danDecay).gravityHistory.getD i v3Zero).x =
        (if i = 0 then v3Zero else (calibOf accelData gyroData magData gpsData alpha
          observerAlpha filterAlpha gpsSpeedAlpha danDecay).gravityHistory.getD (i - 1)
          v3Zero).x ∧
      ((calibOf accelData gyroData magData gpsData alpha observerAlpha filterAlpha gpsSpeedAlpha
          danDecay).gravityHistory.getD i v3Zero).y =
        (if i = 0 then v3Zero else (calibOf accelData gyroData magData gpsData alpha
          observerAlpha filterAlpha gpsSpeedAlpha danDecay).gravityHistory.getD (i - 1)
          v3Zero).y ∧
      ((calibOf accelData gyroData magData gpsData alpha observerAlpha filterAlpha gpsSpeedAlpha
          danDecay).gravityHistory.getD i v3Zero).z =
        (if i = 0 then v3Zero else (calibOf accelData gyroData magData gpsData alpha
          observerAlpha filterAlpha gpsSpeedAlpha danDecay).gravityHistory.getD (i - 1)
          v3Zero).z) := by
  obtain ⟨C, outs, sti, gy, hCa, hgy, hlen, hres, hlink, hout⟩ := apply_step_at accelData
    gyroData magData gpsData alpha observerAlpha filterAlpha gpsSpeedAlpha danDecay i hi hc
  have hi2 : i < outs.reverse.length := by simp [hlen]; exact hi
  have bG : (finalizeResult accelData outs).gravityHistory.getD i v3Zero =
      (outs.reverse.getD i initStepOut).gravityHistory :=
    getD_map_of_lt _ _ _ hi2 _ _
  have bV : (finalizeResult accelData outs).virtualForwardAccel.getD i f0 =
      (outs.reverse.getD i initStepOut).virtualForwardAccel :=
    getD_map_of_lt _ _ _ hi2 _ _
  have bAX : (finalizeResult accelData outs).accelFilteredX.getD i f0 =
      (outs.reverse.getD i initStepOut).accelFilteredX :=
    getD_map_of_lt _ _ _ hi2 _ _
  have bAY : (finalizeResult accelData outs).accelFilteredY.getD i f0 =
      (outs.reverse.getD i initStepOut).accelFilteredY :=
    getD_map_of_lt _ _ _ hi2 _ _
  have bAZ : (finalizeResult accelData outs).accelFilteredZ.getD i f0 =
      (outs.reverse.getD i initStepOut).accelFilteredZ :=
    getD_map_of_lt _ _ _ hi2 _ _
  have bPrev : (if i = 0 then v3Zero
      else (finalizeResult accelData outs).gravityHistory.getD (i - 1) v3Zero) =
      (if i = 0 then initStepOut else outs.reverse.getD (i - 1) initStepOut).gravityHistory := by
    cases i with
    | zero => simp [initStepOut]
    | succ j =>
      simp only [Nat.succ_ne_zero, if_neg, reduceIte]
      exact getD_map_of_lt _ _ _ (by simp [hlen]; omega) _ _
  have hspec := stepCore_C1 (mkParams alpha observerAlpha filterAlpha gpsSpeedAlpha danDecay)
    C i sti (if i = 0 then initStepOut else outs.reverse.getD (i - 1) initStepOut) gy hlink
  rw [hres, bG, bV, bAX, bAY, bAZ, bPrev, hout]
  exact hspec

/-- Witness for C1 at a concrete completing input. -/
theorem C1_witness :
    (0 < exV0.length ∧
      (applyFloatingCalibration exV0 exV0 [] exGps0 (Frac.fr 19 20) (Frac.fr 1 20)
        (Frac.fr 1 20) (Frac.fr 19 20) (Frac.fr 19 20)).isSome = true) ∧
    (¬ Frac.flt (Frac.fr 1 5) ((calibOf exV0 exV0 [] exGps0 (Frac.fr 19 20) (Frac.fr 1 20)
        (Frac.fr 1 20) (Frac.fr 19 20) (Frac.fr 19 20)).virtualForwardAccel.getD 0 f0).fabs →
      ((calibOf exV0 exV0 [] exGps0 (Frac.fr 19 20) (Frac.fr 1 20) (Frac.fr 1 20)
          (Frac.fr 19 20) (Frac.fr 19 20)).gravityHistory.getD 0 v3Zero).x =
        emaOldNew (Frac.fr 19 20)
          (if 0 = 0 then v3Zero else (calibOf exV0 exV0 [] exGps0 (Frac.fr 19 20)
            (Frac.fr 1 20) (Frac.fr 1 20) (Frac.fr 19 20)
            (Frac.fr 19 20)).gravityHistory.getD (0 - 1) v3Zero).x
          ((calibOf exV0 exV0 [] exGps0 (Frac.fr 19 20) (Frac.fr 1 20) (Frac.fr 1 20)
            (Frac.fr 19 20) (Frac.fr 19 20)).accelFilteredX.getD 0 f0) ∧
      ((calibOf exV0 exV0 [] exGps0 (Frac.fr 19 20) (Frac.fr 1 20) (Frac.fr 1 20)
          (Frac.fr 19 20) (Frac.fr 19 20)).gravityHistory.getD 0 v3Zero).y =
        emaOldNew (Frac.fr 19 20)
          (if 0 = 0 then v3Zero else (calibOf exV0 exV0 [] exGps0 (Frac.fr 19 20)
            (Frac.fr 1 20) (Frac.fr 1 20) (Frac.fr 19 20)
            (Frac.fr 19 20)).gravityHistory.getD (0 - 1) v3Zero).y
          ((calibOf exV0 exV0 [] exGps0 (Frac.fr 19 20) (Frac.fr 1 20) (Frac.fr 1 20)
            (Frac.fr 19 20) (Frac.fr 19 20)).accelFilteredY.getD 0 f0) ∧
      ((calibOf exV0 exV0 [] exGps0 (Frac.fr 19 20) (Frac.fr 1 20) (Frac.fr 1 20)
          (Frac.fr 19 20) (Frac.fr 19 20)).gravityHistory.getD 0 v3Zero).z =
        emaOldNew (Frac.fr 19 20)
          (if 0 = 0 then v3Zero else (calibOf exV0 exV0 [] exGps0 (Frac.fr 19 20)
            (Frac.fr 1 20) (Frac.fr 1 20) (Frac.fr 19 20)
            (Frac.fr 19 20)).gravityHistory.getD (0 - 1) v3Zero).z
          ((calibOf exV0 exV0 [] exGps0 (Frac.fr 19 20) (Frac.fr 1 20) (Frac.fr 1 20)
            (Frac.fr 19 20) (Frac.fr 19 20)).accelFilteredZ.getD 0 f0)) :=
  ⟨⟨by decide, by decide⟩,
    (C1_gravity_gate exV0 exV0 [] exGps0 (Frac.fr 19 20) (Frac.fr 1 20) (Frac.fr 1 20)
      (Frac.fr 19 20) (Frac.fr 19 20) 0 (by decide) (by decide)).1⟩

/-- Exact orthogonality: subtracting the gravity projection kills the
dot product (rational arithmetic, gravity bounded away from zero). -/
theorem ortho_dot_zero (f g : Vector3D) (hg : Frac.flt (Frac.fr 1 100) (dotV g g)) :
    (dotV (subV f (scaleV ((dotV f g).div (dotV g g)) g)) g).toRat = 0 := by
  have hpos : (0 : ℚ) < (dotV g g).toRat := by
    have h1 := (Frac.flt_iff _ _).mp hg
    rw [Frac.toRat_fr _ _ (by norm_num)] at h1
    have : (0 : ℚ) < (1 : ℚ) / 100 := by norm_num
    calc (0 : ℚ) < ((1 : ℤ) : ℚ) / ((100 : ℤ) : ℚ) := by norm_num
    _ < (dotV g g).toRat := h1
  have hne : (dotV g g).toRat ≠ 0 := ne_of_gt hpos
  simp only [dotV, subV, scaleV, v3] at hne ⊢
  simp only [Frac.toRat_add, Frac.toRat_mul, Frac.toRat_sub, Frac.toRat_div] at hne ⊢
  field_simp
  ring

theorem orthogonalize_dot_zero (f g : Vector3D) (tfu : ℕ) (hfu : 0 < tfu)
    (hg : Frac.flt (Frac.fr 1 100) (dotV g g)) :
    (dotV (orthogonalizeForward f g tfu) g).toRat = 0 := by
  unfold orthogonalizeForward
  rw [if_pos ⟨hg, hfu⟩]
  exact ortho_dot_zero f g hg

/-- Per-step orthogonality: whenever a forward update has happened and
the gravity magnitude exceeds the 0.1 guard, the pushed forward and
gravity snapshots are exactly orthogonal. -/
theorem stepCore_C2 (P : CalibParams) (C : CalibCtx) (i : ℕ) (st : TrackerState)
    (prev : StepOut) (g : Vector3D)
    (hfu : 0 < (calibStepCore P C i st prev g).2.forwardUpdateCount)
    (hg : Frac.flt (Frac.fr 1 100)
      (dotV (calibStepCore P C i st prev g).2.gravityHistory
            (calibStepCore P C i st prev g).2.gravityHistory)) :
    (dotV (calibStepCore P C i st prev g).2.forwardHistory
          (calibStepCore P C i st prev g).2.gravityHistory).toRat = 0 :=
  orthogonalize_dot_zero _ _ _ hfu hg

/-- C2 (amended): for every sample `i` with `forwardUpdateCount[i] > 0`
*and gravity magnitude above the source's 0.1 orthogonalization guard*
(`gravity·gravity > 0.01`), the forward snapshot is orthogonal to the
normalized gravity direction: the dot product is below `1e-6` (it is
exactly 0 in exact arithmetic). -/
theorem C2_orthogonality (accelData gyroData magData : List Vector3D)
    (gpsData : List GPSData) (alpha observerAlpha filterAlpha gpsSpeedAlpha danDecay : Frac)
    (i : ℕ) (hi : i < accelData.length)
    (hc : (applyFloatingCalibration accelData gyroData magData gpsData alpha observerAlpha
      filterAlpha gpsSpeedAlpha danDecay).isSome = true)
    (hfu : 0 < (calibOf accelData gyroData magData gpsData alpha observerAlpha filterAlpha
      gpsSpeedAlpha danDecay).forwardUpdateCount.getD i 0)
    (hg : Frac.flt (Frac.fr 1 100)
      (dotV ((calibOf accelData gyroData magData gpsData alpha observerAlpha filterAlpha
          gpsSpeedAlpha danDecay).gravityHistory.getD i v3Zero)
        ((calibOf accelData gyroData magData gpsData alpha observerAlpha filterAlpha
          gpsSpeedAlpha danDecay).gravityHistory.getD i v3Zero))) :
    (dotV ((calibOf accelData gyroData magData gpsData alpha observerAlpha filterAlpha
        gpsSpeedAlpha danDecay).forwardHistory.getD i v3Zero)
      (normalizeV ((calibOf accelData gyroData magData gpsData alpha observerAlpha filterAlpha
        gpsSpeedAlpha danDecay).gravityHistory.getD i v3Zero))).toRat < 1 / 1000000 := by
  obtain ⟨C, outs, sti, gy, hCa, hgy, hlen, hres, hlink, hout⟩ := apply_step_at accelData
    gyroData magData gpsData alpha observerAlpha filterAlpha gpsSpeedAlpha danDecay i hi hc
  have hi2 : i < outs.reverse.length := by simp [hlen]; exact hi
  have bG : (finalizeResult accelData outs).gravityHistory.getD i v3Zero =
      (outs.reverse.getD i initStepOut).gravityHistory :=
    getD_map_of_lt _ _ _ hi2 _ _
  have bF : (finalizeResult accelData outs).forwardHistory.getD i v3Zero =
      (outs.reverse.getD i initStepOut).forwardHistory :=
    getD_map_of_lt _ _ _ hi2 _ _
  have bU : (finalizeResult accelData outs).forwardUpdateCount.getD i 0 =
      (outs.reverse.getD i initStepOut).forwardUpdateCount :=
    getD_map_of_lt _ _ _ hi2 _ _
  rw [hres] at hfu hg ⊢
  rw [bU, hout] at hfu
  rw [bG, hout] at hg
  rw [bF, bG, hout]
  have hz := stepCore_C2 _ _ _ _ _ _ hfu hg
  set fv := (calibStepCore (mkParams alpha observerAlpha filterAlpha gpsSpeedAlpha danDecay) C
    i sti (if i = 0 then initStepOut else outs.reverse.getD (i - 1) initStepOut)
    gy).2.forwardHistory with hfv
  set gv := (calibStepCore (mkParams alpha observerAlpha filterAlpha gpsSpeedAlpha danDecay) C
    i sti (if i = 0 then initStepOut else outs.reverse.getD (i - 1) initStepOut)
    gy).2.gravityHistory with hgv
  have hsplit : (dotV fv (normalizeV gv)).toRat =
      (dotV fv gv).toRat * ((Frac.sqrtF (dotV gv gv)).toRat)⁻¹ := by
    simp only [normalizeV, divV, dotV, v3]
    simp only [Frac.toRat_add, Frac.toRat_mul, Frac.toRat_div]
    rw [div_eq_mul_inv, div_eq_mul_inv, div_eq_mul_inv]
    ring
  rw [hsplit, hz, zero_mul]
  norm_num

/-- Counterexample to C2 as stated: a run in which forward learning
fires at sample 1 while the gravity estimate is still tiny, so the
orthogonalization is skipped and the forward snapshot is exactly
*parallel* to the normalized gravity direction (dot product 1). -/
theorem C2_counterexample :
    (ex2Run.map fun r => decide
      (0 < r.forwardUpdateCount.getD 1 0 ∧
        ¬ Frac.flt (dotV (r.forwardHistory.getD 1 v3Zero)
            (normalizeV (r.gravityHistory.getD 1 v3Zero))) (Frac.fr 1 1000000) ∧
        Frac.feq (dotV (r.forwardHistory.getD 1 v3Zero)
            (normalizeV (r.gravityHistory.getD 1 v3Zero))) f1)) = some true := by
  decide

/-- Witness for the amended C2 at a concrete input where gravity is
already large when forward learning first fires. -/
theorem C2_witness :
    ((1 : ℕ) < ex2Accel.length ∧
      (applyFloatingCalibration ex2Accel ex2Gyro [] ex2Gps (Frac.fr 1 2) f0 (Frac.fi 1)
        (Frac.fr 1 2) f0).isSome = true ∧
      0 < (calibOf ex2Accel ex2Gyro [] ex2Gps (Frac.fr 1 2) f0 (Frac.fi 1) (Frac.fr 1 2)
        f0).forwardUpdateCount.getD 1 0 ∧
      Frac.flt (Frac.fr 1 100)
        (dotV ((calibOf ex2Accel ex2Gyro [] ex2Gps (Frac.fr 1 2) f0 (Frac.fi 1) (Frac.fr 1 2)
            f0).gravityHistory.getD 1 v3Zero)
          ((calibOf ex2Accel ex2Gyro [] ex2Gps (Frac.fr 1 2) f0 (Frac.fi 1) (Frac.fr 1 2)
            f0).gravityHistory.getD 1 v3Zero))) ∧
    (dotV ((calibOf ex2Accel ex2Gyro [] ex2Gps (Frac.fr 1 2) f0 (Frac.fi 1) (Frac.fr 1 2)
        f0).forwardHistory.getD 1 v3Zero)
      (normalizeV ((calibOf ex2Accel ex2Gyro [] ex2Gps (Frac.fr 1 2) f0 (Frac.fi 1)
        (Frac.fr 1 2) f0).gravityHistory.getD 1 v3Zero))).toRat < 1 / 1000000 :=
  ⟨⟨by decide, by decide, by decide, by decide⟩,
    C2_orthogonality ex2Accel ex2Gyro [] ex2Gps (Frac.fr 1 2) f0 (Frac.fi 1) (Frac.fr 1 2) f0
      1 (by decide) (by decide) (by decide) (by decide)⟩

/-! ### Error paths: empty GPS (C3) and short gyro (C6) -/

theorem jsGet_nil {α : Type} (i : ℤ) : jsGet? ([] : List α) i = none := by
  unfold jsGet?
  rw [dif_neg]
  simp

theorem jsGet_of_le {α : Type} (l : List α) (i : ℕ) (h : l.length ≤ i) :
    jsGet? l (i : ℤ) = none := by
  unfold jsGet?
  rw [dif_neg]
  simp
  omega

/-- With an empty `gpsData` and at least one accelerometer sample, the
`steppedRawGPS` loop reads `gpsData[-1].mps`, i.e. `.mps` of
`undefined`: it throws. -/
theorem steppedRawGPS_empty (accelLen : ℕ) (h : 0 < accelLen) :
    steppedRawGPS accelLen [] = none := by
  unfold steppedRawGPS
  obtain ⟨m, rfl⟩ : ∃ m, accelLen = m + 1 := ⟨accelLen - 1, by omega⟩
  rw [List.range_succ_eq_map]
  simp [jsGet_nil, List.mapM.loop]

/-- C3 (the code as it is): a call with empty `gpsData` and non-empty
`accelData` throws (models the `TypeError` of source line 193) instead
of completing with empty segments. -/
theorem C3_empty_gps_throws (accelData gyroData magData : List Vector3D)
    (alpha observerAlpha filterAlpha gpsSpeedAlpha danDecay : Frac)
    (h : 0 < accelData.length) :
    applyFloatingCalibration accelData gyroData magData [] alpha observerAlpha filterAlpha
      gpsSpeedAlpha danDecay = none := by
  unfold applyFloatingCalibration
  rw [steppedRawGPS_empty _ h]

/-- Witness for C3's theorem at the concrete failing input. -/
theorem C3_witness :
    0 < exV0.length ∧
      applyFloatingCalibration exV0 exV0 [] [] (Frac.fr 19 20) (Frac.fr 1 20) (Frac.fr 1 20)
        (Frac.fr 19 20) (Frac.fr 19 20) = none :=
  ⟨by decide,
    C3_empty_gps_throws exV0 exV0 [] (Frac.fr 19 20) (Frac.fr 1 20) (Frac.fr 1 20)
      (Frac.fr 19 20) (Frac.fr 19 20) (by decide)⟩

theorem calibStep_missing (P : CalibParams) (C : CalibCtx) (i : ℕ) (st : TrackerState)
    (prev : StepOut) (h : C.gyroData.length ≤ i) : calibStep P C i st prev = none := by
  unfold calibStep
  rw [jsGet_of_le _ _ h]

theorem calibLoop_none_succ (P : CalibParams) (C : CalibCtx) (n : ℕ)
    (h : calibLoop P C n = none) : calibLoop P C (n + 1) = none := by
  simp [calibLoop, h]

theorem calibLoop_none_mono (P : CalibParams) (C : CalibCtx) (m n : ℕ) (hmn : m ≤ n)
    (hm : calibLoop P C m = none) : calibLoop P C n = none := by
  induction n with
  | zero =>
    have : m = 0 := by omega
    rw [← this]
    exact hm
  | succ k ih =>
    rcases Nat.lt_succ_iff_lt_or_eq.mp (Nat.lt_succ_of_le hmn) with hlt | heq
    · exact calibLoop_none_succ P C k (ih (by omega))
    · rw [← heq]; exact hm

theorem calibLoop_gyro_short (P : CalibParams) (C : CalibCtx) (n : ℕ)
    (h : C.gyroData.length < n) : calibLoop P C n = none := by
  have hstop : calibLoop P C (C.gyroData.length + 1) = none := by
    cases hl : calibLoop P C C.gyroData.length with
    | none => exact calibLoop_none_succ P C _ hl
    | some sr =>
      simp only [calibLoop, hl, Option.some_bind]
      rw [calibStep_missing P C _ sr.1 (sr.2.headD initStepOut) (le_refl _)]
      rfl
  exact calibLoop_none_mono P C _ _ (by omega) hstop

/-- C6 (the code as it is): a call whose `gyroData` is shorter than
`accelData` does *not* complete — the unguarded DON read
`gyroData[i].x` (source line 666) throws at the first missing index.
The `gyro[i] || zero` guard of line 244 only protects the earlier
reads of the same iteration. -/
theorem C6_short_gyro_throws (accelData gyroData magData : List Vector3D)
    (gpsData : List GPSData) (alpha observerAlpha filterAlpha gpsSpeedAlpha danDecay : Frac)
    (h : gyroData.length < accelData.length) :
    applyFloatingCalibration accelData gyroData magData gpsData alpha observerAlpha
      filterAlpha gpsSpeedAlpha danDecay = none := by
  unfold applyFloatingCalibration
  cases hs : steppedRawGPS accelData.length gpsData with
  | none => rfl
  | some stepped =>
    have hnone : calibLoop (mkParams alpha observerAlpha filterAlpha gpsSpeedAlpha danDecay)
        (mkCtx accelData gyroData magData gpsData gpsSpeedAlpha stepped)
        accelData.length = none :=
      calibLoop_gyro_short _ _ _ h
    show Option.map (fun sr => finalizeResult accelData sr.2)
        (calibLoop (mkParams alpha observerAlpha filterAlpha gpsSpeedAlpha danDecay)
          (mkCtx accelData gyroData magData gpsData gpsSpeedAlpha stepped)
          accelData.length) = none
    rw [hnone]
    rfl

/-- Witness for C6's theorem at a concrete input (2 accel samples, 1
gyro sample). -/
theorem C6_witness :
    ([v3Zero] : List Vector3D).length < ([v3Zero, v3Zero] : List Vector3D).length ∧
      applyFloatingCalibration [v3Zero, v3Zero] [v3Zero] [] exGps0 (Frac.fr 19 20)
        (Frac.fr 1 20) (Frac.fr 1 20) (Frac.fr 19 20) (Frac.fr 19 20) = none :=
  ⟨by decide,
    C6_short_gyro_throws [v3Zero, v3Zero] [v3Zero] [] exGps0 (Frac.fr 19 20) (Frac.fr 1 20)
      (Frac.fr 1 20) (Frac.fr 19 20) (Frac.fr 19 20) (by decide)⟩

/-- Counterexample to C6 as stated ("the pipeline completes without
an out-of-bounds error"): the concrete short-gyro call yields no
result (it throws). -/
theorem C6_counterexample : ex6Run.isNone = true := by decide

/-- C9: in every completing call with `gyroData` of the same length as
`accelData`, every per-sample output array of the result — all of
them, in particular `roadDAN` and `roadDON` — has exactly the input
length. -/
theorem C9_lengths (accelData gyroData magData : List Vector3D) (gpsData : List GPSData)
    (alpha observerAlpha filterAlpha gpsSpeedAlpha danDecay : Frac)
    (hg : gyroData.length = accelData.length)
    (hc : (applyFloatingCalibration accelData gyroData magData gpsData alpha observerAlpha
      filterAlpha gpsSpeedAlpha danDecay).isSome = true) :
    (calibOf accelData gyroData magData gpsData alpha observerAlpha filterAlpha gpsSpeedAlpha
        danDecay).transformed.length = accelData.length ∧
    (calibOf accelData gyroData magData gpsData alpha observerAlpha filterAlpha gpsSpeedAlpha
        danDecay).gravityHistory.length = accelData.length ∧
    (calibOf accelData gyroData magData gpsData alpha observerAlpha filterAlpha gpsSpeedAlpha
        danDecay).forwardHistory.length = accelData.length ∧
    (calibOf accelData gyroData magData gpsData alpha observerAlpha filterAlpha gpsSpeedAlpha
        danDecay).forwardChangeRate.length = accelData.length ∧
    (calibOf accelData gyroData magData gpsData alpha observerAlpha filterAlpha gpsSpeedAlpha
        danDecay).confidence.length = accelData.length ∧
    (calibOf accelData gyroData magData gpsData alpha observerAlpha filterAlpha gpsSpeedAlpha
        danDecay).gpsAccelDetected.length = accelData.length ∧
    (calibOf accelData gyroData magData gpsData alpha observerAlpha filterAlpha gpsSpeedAlpha
        danDecay).turningDetected.length = accelData.length ∧
    (calibOf accelData gyroData magData gpsData alpha observerAlpha filterAlpha gpsSpeedAlpha
        danDecay).forwardUpdateCount.length = accelData.length ∧
    (calibOf accelData gyroData magData gpsData alpha observerAlpha filterAlpha gpsSpeedAlpha
        danDecay).virtualForwardAccel.length = accelData.length ∧
    (calibOf accelData gyroData magData gpsData alpha observerAlpha filterAlpha gpsSpeedAlpha
        danDecay).virtualLateralAccel.length = accelData.length ∧
    (calibOf accelData gyroData magData gpsData alpha observerAlpha filterAlpha gpsSpeedAlpha
        danDecay).phoneStable.length = accelData.length ∧
    (calibOf accelData gyroData magData gpsData alpha observerAlpha filterAlpha gpsSpeedAlpha
        danDecay).vehicleStationary.length = accelData.length ∧
    (calibOf accelData gyroData magData gpsData alpha observerAlpha filterAlpha gpsSpeedAlpha
        danDecay).vehicleMoving.length = accelData.length ∧
    (calibOf accelData gyroData magData gpsData alpha observerAlpha filterAlpha gpsSpeedAlpha
        danDecay).magHeading.length = accelData.length ∧
    (calibOf accelData gyroData magData gpsData alpha observerAlpha filterAlpha gpsSpeedAlpha
        danDecay).gpsSpeedRaw.length = accelData.length ∧
    (calibOf accelData gyroData magData gpsData alpha observerAlpha filterAlpha gpsSpeedAlpha
        danDecay).gpsSpeedSmoothed.length = accelData.length ∧
    (calibOf accelData gyroData magData gpsData alpha observerAlpha filterAlpha gpsSpeedAlpha
        danDecay).gpsSpeedFiltered.length = accelData.length ∧
    (calibOf accelData gyroData magData gpsData alpha observerAlpha filterAlpha gpsSpeedAlpha
        danDecay).rawGPSAccel.length = accelData.length ∧
    (calibOf accelData gyroData magData gpsData alpha observerAlpha filterAlpha gpsSpeedAlpha
        danDecay).gpsDeltaTime.length = accelData.length ∧
    (calibOf accelData gyroData magData gpsData alpha observerAlpha filterAlpha gpsSpeedAlpha
        danDecay).gpsTimestamp.length = accelData.length ∧
    (calibOf accelData gyroData magData gpsData alpha observerAlpha filterAlpha gpsSpeedAlpha
        danDecay).accelLinearX_measured.length = accelData.length ∧
    (calibOf accelData gyroData magData gpsData alpha observerAlpha filterAlpha gpsSpeedAlpha
        danDecay).accelLinearY_measured.length = accelData.length ∧
    (calibOf accelData gyroData magData gpsData alpha observerAlpha filterAlpha gpsSpeedAlpha
        danDecay).accelLinearZ_measured.length = accelData.length ∧
    (calibOf accelData gyroData magData gpsData alpha observerAlpha filterAlpha gpsSpeedAlpha
        danDecay).accelY_measured.length = accelData.length ∧
    (calibOf accelData gyroData magData gpsData alpha observerAlpha filterAlpha gpsSpeedAlpha
        danDecay).accelY_fromGyro.length = accelData.length ∧
    (calibOf accelData gyroData magData gpsData alpha observerAlpha filterAlpha gpsSpeedAlpha
        danDecay).accelY_fromMag.length = accelData.length ∧
    (calibOf accelData gyroData magData gpsData alpha observerAlpha filterAlpha gpsSpeedAlpha
        danDecay).gyroZ_measured.length = accelData.length ∧
    (calibOf accelData gyroData magData gpsData alpha observerAlpha filterAlpha gpsSpeedAlpha
        danDecay).gyroZ_fromAccel.length = accelData.length ∧
    (calibOf accelData gyroData magData gpsData alpha observerAlpha filterAlpha gpsSpeedAlpha
        danDecay).gyroZ_fromMag.length = accelData.length ∧
    (calibOf accelData gyroData magData gpsData alpha observerAlpha filterAlpha gpsSpeedAlpha
        danDecay).heading_measured.length = accelData.length ∧
    (calibOf accelData gyroData magData gpsData alpha observerAlpha filterAlpha gpsSpeedAlpha
        danDecay).heading_fromAccel.length = accelData.length ∧
    (calibOf accelData gyroData magData gpsData alpha observerAlpha filterAlpha gpsSpeedAlpha
        danDecay).heading_fromGyro.length = accelData.length ∧
    (calibOf accelData gyroData magData gpsData alpha observerAlpha filterAlpha gpsSpeedAlpha
        danDecay).accelFilteredX.length = accelData.length ∧
    (calibOf accelData gyroData magData gpsData alpha observerAlpha filterAlpha gpsSpeedAlpha
        danDecay).accelFilteredY.length = accelData.length ∧
    (calibOf accelData gyroData magData gpsData alpha observerAlpha filterAlpha gpsSpeedAlpha
        danDecay).accelFilteredZ.length = accelData.length ∧
    (calibOf accelData gyroData magData gpsData alpha observerAlpha filterAlpha gpsSpeedAlpha
        danDecay).gyroFilteredX.length = accelData.length ∧
    (calibOf accelData gyroData magData gpsData alpha observerAlpha filterAlpha gpsSpeedAlpha
        danDecay).gyroFilteredY.length = accelData.length ∧
    (calibOf accelData gyroData magData gpsData alpha observerAlpha filterAlpha gpsSpeedAlpha
        danDecay).gyroFilteredZ.length = accelData.length ∧
    (calibOf accelData gyroData magData gpsData alpha observerAlpha filterAlpha gpsSpeedAlpha
        danDecay).gravityUpdating.length = accelData.length ∧
    (calibOf accelData gyroData magData gpsData alpha observerAlpha filterAlpha gpsSpeedAlpha
        danDecay).xPrimeFiltered.length = accelData.length ∧
    (calibOf accelData gyroData magData gpsData alpha observerAlpha filterAlpha gpsSpeedAlpha
        danDecay).yPrimeFiltered.length = accelData.length ∧
    (calibOf accelData gyroData magData gpsData alpha observerAlpha filterAlpha gpsSpeedAlpha
        danDecay).zPrimeFiltered.length = accelData.length ∧
    (calibOf accelData gyroData magData gpsData alpha observerAlpha filterAlpha gpsSpeedAlpha
        danDecay).danX.length = accelData.length ∧
    (calibOf accelData gyroData magData gpsData alpha observerAlpha filterAlpha gpsSpeedAlpha
        danDecay).roadDAN.length = accelData.length ∧
    (calibOf accelData gyroData magData gpsData alpha observerAlpha filterAlpha gpsSpeedAlpha
        danDecay).donX.length = accelData.length ∧
    (calibOf accelData gyroData magData gpsData alpha observerAlpha filterAlpha gpsSpeedAlpha
        danDecay).roadDON.length = accelData.length := by
  obtain ⟨stepped, st, outs, hs, hl, hres⟩ := apply_elim accelData gyroData magData gpsData
    alpha observerAlpha filterAlpha gpsSpeedAlpha danDecay hc
  have hlen := calibLoop_len _ _ _ _ _ hl
  have hres2 : calibOf accelData gyroData magData gpsData alpha observerAlpha filterAlpha
      gpsSpeedAlpha danDecay = finalizeResult accelData outs := hres
  rw [hres2]
  unfold finalizeResult
  simp [hlen]

/-- Witness for C9 at the one-sample run. -/
theorem C9_witness :
    (([v3Zero] : List Vector3D).length = exV0.length ∧
      (applyFloatingCalibration exV0 exV0 [] exGps0 (Frac.fr 19 20) (Frac.fr 1 20)
        (Frac.fr 1 20) (Frac.fr 19 20) (Frac.fr 19 20)).isSome = true) ∧
    calib0.transformed.length = exV0.length ∧
    calib0.gravityHistory.length = exV0.length ∧
    calib0.forwardHistory.length = exV0.length ∧
    calib0.forwardChangeRate.length = exV0.length ∧
    calib0.confidence.length = exV0.length ∧
    calib0.gpsAccelDetected.length = exV0.length ∧
    calib0.turningDetected.length = exV0.length ∧
    calib0.forwardUpdateCount.length = exV0.length ∧
    calib0.virtualForwardAccel.length = exV0.length ∧
    calib0.virtualLateralAccel.length = exV0.length ∧
    calib0.phoneStable.length = exV0.length ∧
    calib0.vehicleStationary.length = exV0.length ∧
    calib0.vehicleMoving.length = exV0.length ∧
    calib0.magHeading.length = exV0.length ∧
    calib0.gpsSpeedRaw.length = exV0.length ∧
    calib0.gpsSpeedSmoothed.length = exV0.length ∧
    calib0.gpsSpeedFiltered.length = exV0.length ∧
    calib0.rawGPSAccel.length = exV0.length ∧
    calib0.gpsDeltaTime.length = exV0.length ∧
    calib0.gpsTimestamp.length = exV0.length ∧
    calib0.accelLinearX_measured.length = exV0.length ∧
    calib0.accelLinearY_measured.length = exV0.length ∧
    calib0.accelLinearZ_measured.length = exV0.length ∧
    calib0.accelY_measured.length = exV0.length ∧
    calib0.accelY_fromGyro.length = exV0.length ∧
    calib0.accelY_fromMag.length = exV0.length ∧
    calib0.gyroZ_measured.length = exV0.length ∧
    calib0.gyroZ_fromAccel.length = exV0.length ∧
    calib0.gyroZ_fromMag.length = exV0.length ∧
    calib0.heading_measured.length = exV0.length ∧
    calib0.heading_fromAccel.length = exV0.length ∧
    calib0.heading_fromGyro.length = exV0.length ∧
    calib0.accelFilteredX.length = exV0.length ∧
    calib0.accelFilteredY.length = exV0.length ∧
    calib0.accelFilteredZ.length = exV0.length ∧
    calib0.gyroFilteredX.length = exV0.length ∧
    calib0.gyroFilteredY.length = exV0.length ∧
    calib0.gyroFilteredZ.length = exV0.length ∧
    calib0.gravityUpdating.length = exV0.length ∧
    calib0.xPrimeFiltered.length = exV0.length ∧
    calib0.yPrimeFiltered.length = exV0.length ∧
    calib0.zPrimeFiltered.length = exV0.length ∧
    calib0.danX.length = exV0.length ∧
    calib0.roadDAN.length = exV0.length ∧
    calib0.donX.length = exV0.length ∧
    calib0.roadDON.length = exV0.length :=
  ⟨⟨by decide, by decide⟩,
    C9_lengths exV0 exV0 [] exGps0 (Frac.fr 19 20) (Frac.fr 1 20) (Frac.fr 1 20)
      (Frac.fr 19 20) (Frac.fr 19 20) (by decide) (by decide)⟩

/-! ### Histogram engine: C7 and C8 -/

theorem sum_take_succ_getD (l : List ℚ) (b : ℕ) :
    (l.take (b + 1)).sum = (l.take b).sum + l.getD b 0 := by
  induction l generalizing b with
  | nil => simp
  | cons x xs ih =>
    cases b with
    | zero => simp
    | succ n =>
      simp only [List.take_succ_cons, List.sum_cons, ih, List.getD_cons_succ]
      ring

theorem getD_zero_nonneg (l : List ℚ) (h : ∀ x ∈ l, 0 ≤ x) (b : ℕ) : 0 ≤ l.getD b 0 := by
  by_cases hb : b < l.length
  · rw [List.getD_eq_getElem _ _ hb]
    exact h _ (List.getElem_mem hb)
  · rw [List.getD_eq_default _ _ (by omega)]

theorem sum_take_mono (l : List ℚ) (h : ∀ x ∈ l, 0 ≤ x) (b1 b2 : ℕ) (hb : b1 ≤ b2) :
    (l.take b1).sum ≤ (l.take b2).sum := by
  induction b2 with
  | zero =>
    have : b1 = 0 := by omega
    rw [this]
  | succ k ih =>
    rcases Nat.lt_succ_iff_lt_or_eq.mp (Nat.lt_succ_of_le hb) with hlt | heq
    · calc (l.take b1).sum ≤ (l.take k).sum := ih (by omega)
      _ ≤ (l.take (k + 1)).sum := by
          rw [sum_take_succ_getD]
          have := getD_zero_nonneg l h k
          linarith
    · rw [heq]
   
theorem samplesBelow_mono (l : List ℚ) (h : ∀ x ∈ l, 0 ≤ x) (b1 b2 : ℕ) (hb : b1 ≤ b2) :
    (l.take b1).sum + l.getD b1 0 / 2 ≤ (l.take b2).sum + l.getD b2 0 / 2 := by
  rcases Nat.lt_or_ge b1 b2 with hlt | hge
  · have h1 := getD_zero_nonneg l h b1
    have h2 := getD_zero_nonneg l h b2
    calc (l.take b1).sum + l.getD b1 0 / 2
        ≤ (l.take b1).sum + l.getD b1 0 := by linarith
      _ = (l.take (b1 + 1)).sum := (sum_take_succ_getD l b1).symm
      _ ≤ (l.take b2).sum := sum_take_mono l h _ _ (by omega)
      _ ≤ (l.take b2).sum + l.getD b2 0 / 2 := by linarith
  · have : b1 = b2 := by omega
    rw [this]

/-- C7: `getPercentile` is monotonically non-decreasing in its value
argument, for any histogram with positive `totalSamples` and
nonnegative bin counts. -/
theorem C7_getPercentile_monotone (h : DANHistogram) (htot : 0 < h.totalSamples)
    (hbins : ∀ b ∈ h.bins, 0 ≤ b) (v1 v2 : ℚ) (hv : v1 ≤ v2) :
    getPercentile h v1 ≤ getPercentile h v2 := by
  unfold getPercentile
  rw [if_neg (by exact ne_of_gt htot), if_neg (by exact ne_of_gt htot)]
  have hclamp : max 0 (min v1 (4 - 1 / 1000)) ≤ max 0 (min v2 (4 - 1 / 1000)) :=
    max_le_max (le_refl _) (min_le_min hv (le_refl _))
  have hbin : (⌊max 0 (min v1 (4 - 1 / 1000)) / (4 / 100)⌋).toNat ≤
      (⌊max 0 (min v2 (4 - 1 / 1000)) / (4 / 100)⌋).toNat := by
    apply Int.toNat_le_toNat
    apply Int.floor_le_floor
    apply div_le_div_of_nonneg_right hclamp
    norm_num
  have hsb := samplesBelow_mono h.bins hbins _ _ hbin
  unfold jsRound
  apply Int.floor_le_floor
  have hstep : ((h.bins.take (⌊max 0 (min v1 (4 - 1 / 1000)) / (4 / 100)⌋).toNat).sum +
      h.bins.getD (⌊max 0 (min v1 (4 - 1 / 1000)) / (4 / 100)⌋).toNat 0 / 2) /
        h.totalSamples * 100 ≤
      ((h.bins.take (⌊max 0 (min v2 (4 - 1 / 1000)) / (4 / 100)⌋).toNat).sum +
      h.bins.getD (⌊max 0 (min v2 (4 - 1 / 1000)) / (4 / 100)⌋).toNat 0 / 2) /
        h.totalSamples * 100 := by
    apply mul_le_mul_of_nonneg_right _ (by norm_num)
    exact (div_le_div_iff_of_pos_right htot).mpr hsb
  linarith

/-- Witness for C7 on a concrete 100-bin histogram. -/
theorem C7_witness :
    ((0 : ℚ) < exHist.totalSamples ∧ (∀ b ∈ exHist.bins, (0 : ℚ) ≤ b) ∧ ((0 : ℚ) ≤ 1)) ∧
    getPercentile exHist 0 ≤ getPercentile exHist 1 := by
  have h1 : (0 : ℚ) < exHist.totalSamples := by
    show (0 : ℚ) < 100
    norm_num
  have h2 : ∀ b ∈ exHist.bins, (0 : ℚ) ≤ b := by
    intro b hb
    have hb2 : b ∈ List.replicate 100 (1 : ℚ) := hb
    rw [List.eq_of_mem_replicate hb2]
    norm_num
  exact ⟨⟨h1, h2, by norm_num⟩, C7_getPercentile_monotone exHist h1 h2 0 1 (by norm_num)⟩

theorem mergeBins_getD (t s : List ℚ) (i : ℕ) (hi : i < t.length) :
    ((List.range t.length).map fun j => t.getD j 0 + s.getD j 0).getD i 0 =
      t.getD i 0 + s.getD i 0 := by
  have hr : i < (List.range t.length).length := by simp [hi]
  rw [getD_map_of_lt _ _ _ hr 0 0, List.getD_eq_getElem _ _ hr, List.getElem_range]

theorem mergeHistogram_bins_length (t : PersistentHistogram) (s : DANHistogram) :
    (mergeHistogram t s).bins.length = t.bins.length := by
  unfold mergeHistogram
  simp

theorem mergeHistogram_bins_getD (t : PersistentHistogram) (s : DANHistogram) (i : ℕ)
    (hi : i < t.bins.length) :
    (mergeHistogram t s).bins.getD i 0 = t.bins.getD i 0 + s.bins.getD i 0 :=
  mergeBins_getD _ _ _ hi

/-- C8: `mergeHistogram` is associative on bins for 100-bin
histograms: merging B then C into A gives, element-wise, the same bin
array as merging (B merged with C) into A. -/
theorem C8_merge_assoc (A B C : PersistentHistogram) (hA : A.bins.length = 100)
    (hB : B.bins.length = 100) (hC : C.bins.length = 100) :
    (mergeHistogram (mergeHistogram A B.toDANHistogram) C.toDANHistogram).bins =
      (mergeHistogram A (mergeHistogram B C.toDANHistogram).toDANHistogram).bins := by
  apply List.ext_getElem
  · simp [mergeHistogram_bins_length]
  · intro i h1 h2
    have hi : i < A.bins.length := by
      rw [mergeHistogram_bins_length, mergeHistogram_bins_length] at h1
      exact h1
    have hiB : i < B.bins.length := by
      rw [hB]
      rw [hA] at hi
      exact hi
    rw [← List.getD_eq_getElem _ 0 h1, ← List.getD_eq_getElem _ 0 h2]
    rw [mergeHistogram_bins_getD _ _ _ (by rw [mergeHistogram_bins_length]; exact hi),
      mergeHistogram_bins_getD _ _ _ hi,
      mergeHistogram_bins_getD _ _ _ hi,
      mergeHistogram_bins_getD _ _ _ hiB]
    ring

/-- Witness for C8 on concrete 100-bin histograms. -/
theorem C8_witness :
    (exPersistent.bins.length = 100 ∧ exPersistent.bins.length = 100 ∧
      exPersistent.bins.length = 100) ∧
    (mergeHistogram (mergeHistogram exPersistent exPersistent.toDANHistogram)
        exPersistent.toDANHistogram).bins =
      (mergeHistogram exPersistent
        (mergeHistogram exPersistent exPersistent.toDANHistogram).toDANHistogram).bins := by
  have hl : exPersistent.bins.length = 100 := by
    show (List.replicate 100 (1 : ℚ)).length = 100
    simp
  exact ⟨⟨hl, hl, hl⟩, C8_merge_assoc exPersistent exPersistent exPersistent hl hl hl⟩

/-! ### C5: guarded basis construction -/

theorem stepCore_transformed (P : CalibParams) (C : CalibCtx) (i : ℕ) (st : TrackerState)
    (prev : StepOut) (g : Vector3D) :
    (calibStepCore P C i st prev g).2.transformed.x =
      dotV (subV (C.accelData.getD i v3Zero) (calibStepCore P C i st prev g).2.gravityHistory)
        (fwdDirOf (calibStepCore P C i st prev g).2.forwardHistory) ∧
    (calibStepCore P C i st prev g).2.transformed.y =
      dotV (subV (C.accelData.getD i v3Zero) (calibStepCore P C i st prev g).2.gravityHistory)
        (crossV (fwdDirOf (calibStepCore P C i st prev g).2.forwardHistory)
          (downOf (calibStepCore P C i st prev g).2.gravityHistory)) ∧
    (calibStepCore P C i st prev g).2.transformed.z =
      dotV (subV (C.accelData.getD i v3Zero) (calibStepCore P C i st prev g).2.gravityHistory)
        (downOf (calibStepCore P C i st prev g).2.gravityHistory) :=
  ⟨rfl, rfl, rfl⟩

theorem downOf_spec (g : Vector3D) :
    (¬ Frac.flt (Frac.fr 1 100) (dotV g g) ∧ downOf g = v3 f0 f0 f1) ∨
    (Frac.flt (Frac.fr 1 100) (dotV g g) ∧ downOf g = divV g (Frac.sqrtF (dotV g g))) := by
  by_cases h : Frac.flt (Frac.fr 1 100) (dotV g g)
  · right
    exact ⟨h, by unfold downOf; rw [if_pos h]⟩
  · left
    exact ⟨h, by unfold downOf; rw [if_neg h]⟩

theorem fwdDirOf_spec (f : Vector3D) :
    (¬ Frac.flt (Frac.fr 1 100) (dotV f f) ∧ fwdDirOf f = v3 f1 f0 f0) ∨
    (Frac.flt (Frac.fr 1 100) (dotV f f) ∧ fwdDirOf f = divV f (Frac.sqrtF (dotV f f))) := by
  by_cases h : Frac.flt (Frac.fr 1 100) (dotV f f)
  · right
    exact ⟨h, by unfold fwdDirOf; rw [if_pos h]⟩
  · left
    exact ⟨h, by unfold fwdDirOf; rw [if_neg h]⟩

theorem renormalizeForward_noop (w : Vector3D)
    (h : ¬ Frac.flt (Frac.fr 1 10000) (dotV w w)) : renormalizeForward w = w := by
  unfold renormalizeForward
  rw [if_neg h]

/-- C5: the frame transform of every completing run uses the guarded
basis: `transformed[i]` projects `accel[i] - gravity[i]` onto
`fwdDirOf(forward[i])`, `crossV(fwdDirOf, downOf)` and
`downOf(gravity[i])`, where `downOf` is normalised gravity exactly
when `gravity·gravity > 0.01` (the source's `|gravity| > 0.1`) and the
identity `{0,0,1}` otherwise, `fwdDirOf` likewise with identity
`{1,0,0}`, and the forward-learning renormalisation divides only when
`forward·forward > 0.0001` (the source's `|forward| > 0.01`).  In the
exact-rational embedding every division is therefore guarded away from
zero and all outputs are well-defined finite rationals — the model's
rendering of "no NaN/Infinity". -/
theorem C5_guarded_basis (accelData gyroData magData : List Vector3D)
    (gpsData : List GPSData) (alpha observerAlpha filterAlpha gpsSpeedAlpha danDecay : Frac)
    (i : ℕ) (hi : i < accelData.length)
    (hc : (applyFloatingCalibration accelData gyroData magData gpsData alpha observerAlpha
      filterAlpha gpsSpeedAlpha danDecay).isSome = true) :
    (((calibOf accelData gyroData magData gpsData alpha observerAlpha filterAlpha gpsSpeedAlpha
        danDecay).transformed.getD i v3Zero).x =
      dotV (subV (accelData.getD i v3Zero)
          ((calibOf accelData gyroData magData gpsData alpha observerAlpha filterAlpha
            gpsSpeedAlpha danDecay).gravityHistory.getD i v3Zero))
        (fwdDirOf ((calibOf accelData gyroData magData gpsData alpha observerAlpha filterAlpha
          gpsSpeedAlpha danDecay).forwardHistory.getD i v3Zero)) ∧
    ((calibOf accelData gyroData magData gpsData alpha observerAlpha filterAlpha gpsSpeedAlpha
        danDecay).transformed.getD i v3Zero).y =
      dotV (subV (accelData.getD i v3Zero)
          ((calibOf accelData gyroData magData gpsData alpha observerAlpha filterAlpha
            gpsSpeedAlpha danDecay).gravityHistory.getD i v3Zero))
        (crossV (fwdDirOf ((calibOf accelData gyroData magData gpsData alpha observerAlpha
            filterAlpha gpsSpeedAlpha danDecay).forwardHistory.getD i v3Zero))
          (downOf ((calibOf accelData gyroData magData gpsData alpha observerAlpha filterAlpha
            gpsSpeedAlpha danDecay).gravityHistory.getD i v3Zero))) ∧
    ((calibOf accelData gyroData magData gpsData alpha observerAlpha filterAlpha gpsSpeedAlpha
        danDecay).transformed.getD i v3Zero).z =
      dotV (subV (accelData.getD i v3Zero)
          ((calibOf accelData gyroData magData gpsData alpha observerAlpha filterAlpha
            gpsSpeedAlpha danDecay).gravityHistory.getD i v3Zero))
        (downOf ((calibOf accelData gyroData magData gpsData alpha observerAlpha filterAlpha
          gpsSpeedAlpha danDecay).gravityHistory.getD i v3Zero))) ∧
    ((¬ Frac.flt (Frac.fr 1 100)
        (dotV ((calibOf accelData gyroData magData gpsData alpha observerAlpha filterAlpha
            gpsSpeedAlpha danDecay).gravityHistory.getD i v3Zero)
          ((calibOf accelData gyroData magData gpsData alpha observerAlpha filterAlpha
            gpsSpeedAlpha danDecay).gravityHistory.getD i v3Zero)) ∧
      downOf ((calibOf accelData gyroData magData gpsData alpha observerAlpha filterAlpha
        gpsSpeedAlpha danDecay).gravityHistory.getD i v3Zero) = v3 f0 f0 f1) ∨
     (Frac.flt (Frac.fr 1 100)
        (dotV ((calibOf accelData gyroData magData gpsData alpha observerAlpha filterAlpha
            gpsSpeedAlpha danDecay).gravityHistory.getD i v3Zero)
          ((calibOf accelData gyroData magData gpsData alpha observerAlpha filterAlpha
            gpsSpeedAlpha danDecay).gravityHistory.getD i v3Zero)) ∧
      downOf ((calibOf accelData gyroData magData gpsData alpha observerAlpha filterAlpha
          gpsSpeedAlpha danDecay).gravityHistory.getD i v3Zero) =
        divV ((calibOf accelData gyroData magData gpsData alpha observerAlpha filterAlpha
            gpsSpeedAlpha danDecay).gravityHistory.getD i v3Zero)
          (Frac.sqrtF (dotV ((calibOf accelData gyroData magData gpsData alpha observerAlpha
              filterAlpha gpsSpeedAlpha danDecay).gravityHistory.getD i v3Zero)
            ((calibOf accelData gyroData magData gpsData alpha observerAlpha filterAlpha
              gpsSpeedAlpha danDecay).gravityHistory.getD i v3Zero))))) ∧
    ((¬ Frac.flt (Frac.fr 1 100)
        (dotV ((calibOf accelData gyroData magData gpsData alpha observerAlpha filterAlpha
            gpsSpeedAlpha danDecay).forwardHistory.getD i v3Zero)
          ((calibOf accelData gyroData magData gpsData alpha observerAlpha filterAlpha
            gpsSpeedAlpha danDecay).forwardHistory.getD i v3Zero)) ∧
      fwdDirOf ((calibOf accelData gyroData magData gpsData alpha observerAlpha filterAlpha
        gpsSpeedAlpha danDecay).forwardHistory.getD i v3Zero) = v3 f1 f0 f0) ∨
     (Frac.flt (Frac.fr 1 100)
        (dotV ((calibOf accelData gyroData magData gpsData alpha observerAlpha filterAlpha
            gpsSpeedAlpha danDecay).forwardHistory.getD i v3Zero)
          ((calibOf accelData gyroData magData gpsData alpha observerAlpha filterAlpha
            gpsSpeedAlpha danDecay).forwardHistory.getD i v3Zero)) ∧
      fwdDirOf ((calibOf accelData gyroData magData gpsData alpha observerAlpha filterAlpha
          gpsSpeedAlpha danDecay).forwardHistory.getD i v3Zero) =
        divV ((calibOf accelData gyroData magData gpsData alpha observerAlpha filterAlpha
            gpsSpeedAlpha danDecay).forwardHistory.getD i v3Zero)
          (Frac.sqrtF (dotV ((calibOf accelData gyroData magData gpsData alpha observerAlpha
              filterAlpha gpsSpeedAlpha danDecay).forwardHistory.getD i v3Zero)
            ((calibOf accelData gyroData magData gpsData alpha observerAlpha filterAlpha
              gpsSpeedAlpha danDecay).forwardHistory.getD i v3Zero))))) ∧
    (∀ w : Vector3D, ¬ Frac.flt (Frac.fr 1 10000) (dotV w w) → renormalizeForward w = w) := by
  obtain ⟨C, outs, sti, gy, hCa, hgy, hlen, hres, hlink, hout⟩ := apply_step_at accelData
    gyroData magData gpsData alpha observerAlpha filterAlpha gpsSpeedAlpha danDecay i hi hc
  have hi2 : i < outs.reverse.length := by simp [hlen]; exact hi
  have bT : (finalizeResult accelData outs).transformed.getD i v3Zero =
      (outs.reverse.getD i initStepOut).transformed :=
    getD_map_of_lt _ _ _ hi2 _ _
  have bG : (finalizeResult accelData outs).gravityHistory.getD i v3Zero =
      (outs.reverse.getD i initStepOut).gravityHistory :=
    getD_map_of_lt _ _ _ hi2 _ _
  have bF : (finalizeResult accelData outs).forwardHistory.getD i v3Zero =
      (outs.reverse.getD i initStepOut).forwardHistory :=
    getD_map_of_lt _ _ _ hi2 _ _
  rw [hres, bT, bG, bF, hout, ← hCa]
  exact ⟨stepCore_transformed _ _ _ _ _ _, downOf_spec _, fwdDirOf_spec _,
    renormalizeForward_noop⟩

/-- Witness for C5 at the one-sample run (`calib0` is that run's
result by definition). -/
theorem C5_witness :
    (0 < exV0.length ∧
      (applyFloatingCalibration exV0 exV0 [] exGps0 (Frac.fr 19 20) (Frac.fr 1 20)
        (Frac.fr 1 20) (Frac.fr 19 20) (Frac.fr 19 20)).isSome = true) ∧
    ((calib0.transformed.getD 0 v3Zero).x =
      dotV (subV (exV0.getD 0 v3Zero) (calib0.gravityHistory.getD 0 v3Zero))
        (fwdDirOf (calib0.forwardHistory.getD 0 v3Zero)) ∧
    (calib0.transformed.getD 0 v3Zero).y =
      dotV (subV (exV0.getD 0 v3Zero) (calib0.gravityHistory.getD 0 v3Zero))
        (crossV (fwdDirOf (calib0.forwardHistory.getD 0 v3Zero))
          (downOf (calib0.gravityHistory.getD 0 v3Zero))) ∧
    (calib0.transformed.getD 0 v3Zero).z =
      dotV (subV (exV0.getD 0 v3Zero) (calib0.gravityHistory.getD 0 v3Zero))
        (downOf (calib0.gravityHistory.getD 0 v3Zero))) ∧
    ((¬ Frac.flt (Frac.fr 1 100) (dotV (calib0.gravityHistory.getD 0 v3Zero)
          (calib0.gravityHistory.getD 0 v3Zero)) ∧
      downOf (calib0.gravityHistory.getD 0 v3Zero) = v3 f0 f0 f1) ∨
     (Frac.flt (Frac.fr 1 100) (dotV (calib0.gravityHistory.getD 0 v3Zero)
          (calib0.gravityHistory.getD 0 v3Zero)) ∧
      downOf (calib0.gravityHistory.getD 0 v3Zero) =
        divV (calib0.gravityHistory.getD 0 v3Zero)
          (Frac.sqrtF (dotV (calib0.gravityHistory.getD 0 v3Zero)
            (calib0.gravityHistory.getD 0 v3Zero))))) ∧
    ((¬ Frac.flt (Frac.fr 1 100) (dotV (calib0.forwardHistory.getD 0 v3Zero)
          (calib0.forwardHistory.getD 0 v3Zero)) ∧
      fwdDirOf (calib0.forwardHistory.getD 0 v3Zero) = v3 f1 f0 f0) ∨
     (Frac.flt (Frac.fr 1 100) (dotV (calib0.forwardHistory.getD 0 v3Zero)
          (calib0.forwardHistory.getD 0 v3Zero)) ∧
      fwdDirOf (calib0.forwardHistory.getD 0 v3Zero) =
        divV (calib0.forwardHistory.getD 0 v3Zero)
          (Frac.sqrtF (dotV (calib0.forwardHistory.getD 0 v3Zero)
            (calib0.forwardHistory.getD 0 v3Zero))))) ∧
    (∀ w : Vector3D, ¬ Frac.flt (Frac.fr 1 10000) (dotV w w) → renormalizeForward w = w) :=
  ⟨⟨by decide, by decide⟩,
    C5_guarded_basis exV0 exV0 [] exGps0 (Frac.fr 19 20) (Frac.fr 1 20) (Frac.fr 1 20)
      (Frac.fr 19 20) (Frac.fr 19 20) 0 (by decide) (by decide)⟩

/-! ### C4: block aggregation -/

theorem winStart_le (n : ℕ) : winStart n ≤ n := by
  simp only [winStart]
  split_ifs <;> omega

theorem winStart_succ_eq (n : ℕ) (h : n % 60 ≠ 0) : winStart (n + 1) = winStart n := by
  simp only [winStart]
  split_ifs <;> omega

theorem winStart_succ_boundary (n : ℕ) (h0 : n ≠ 0) (h60 : n % 60 = 0) :
    winStart (n + 1) = n + 1 := by
  simp only [winStart]
  split_ifs <;> omega

theorem winStart_one : winStart 1 = 0 := by
  simp only [winStart]
  split_ifs <;> omega

theorem drop_append_sum (l : List ℚ) (x : ℚ) (k : ℕ) (h : k ≤ l.length) :
    ((l ++ [x]).drop k).sum = (l.drop k).sum + x := by
  rw [List.drop_append_of_le_length h]
  simp

theorem roadDANUpdate_zero (gps : GPSData) (a c x r : Frac) :
    roadDANUpdate 0 gps a c x r = (x, f1, x, none) := rfl

theorem roadDANUpdate_boundary (i : ℕ) (h0 : i ≠ 0) (h60 : i % 60 = 0) (gps : GPSData)
    (a c x r : Frac) :
    (roadDANUpdate i gps a c x r).1 = f0 ∧
    (roadDANUpdate i gps a c x r).2.1 = f0 ∧
    (roadDANUpdate i gps a c x r).2.2.1 = a.div c := by
  unfold roadDANUpdate
  rw [if_neg h0, if_pos h60]
  exact ⟨rfl, rfl, rfl⟩

theorem roadDANUpdate_mid (i : ℕ) (h0 : i ≠ 0) (h60 : i % 60 ≠ 0) (gps : GPSData)
    (a c x r : Frac) :
    roadDANUpdate i gps a c x r = (a.add x, c.add f1, r, none) := by
  unfold roadDANUpdate
  rw [if_neg h0, if_neg h60]

theorem roadDONUpdate_zero (a c x r : Frac) : roadDONUpdate 0 a c x r = (x, f1, x) := rfl

theorem roadDONUpdate_boundary (i : ℕ) (h0 : i ≠ 0) (h60 : i % 60 = 0) (a c x r : Frac) :
    roadDONUpdate i a c x r = (f0, f0, a.div c) := by
  unfold roadDONUpdate
  rw [if_neg h0, if_pos h60]

theorem roadDONUpdate_mid (i : ℕ) (h0 : i ≠ 0) (h60 : i % 60 ≠ 0) (a c x r : Frac) :
    roadDONUpdate i a c x r = (a.add x, c.add f1, r) := by
  unfold roadDONUpdate
  rw [if_neg h0, if_neg h60]

/-- The dan/don fields of a step, exposed through the update
functions. -/
theorem stepCore_dan (P : CalibParams) (C : CalibCtx) (i : ℕ) (st : TrackerState)
    (prev : StepOut) (g : Vector3D) :
    (calibStepCore P C i st prev g).2.roadDAN =
      (roadDANUpdate i (C.interpolatedGPS.getD i gpsZero) st.danAccumulator st.danSampleCount
        (calibStepCore P C i st prev g).2.danX prev.roadDAN).2.2.1 ∧
    (calibStepCore P C i st prev g).1.danAccumulator =
      (roadDANUpdate i (C.interpolatedGPS.getD i gpsZero) st.danAccumulator st.danSampleCount
        (calibStepCore P C i st prev g).2.danX prev.roadDAN).1 ∧
    (calibStepCore P C i st prev g).1.danSampleCount =
      (roadDANUpdate i (C.interpolatedGPS.getD i gpsZero) st.danAccumulator st.danSampleCount
        (calibStepCore P C i st prev g).2.danX prev.roadDAN).2.1 ∧
    (calibStepCore P C i st prev g).2.roadDON =
      (roadDONUpdate i st.donAccumulator st.donSampleCount
        (calibStepCore P C i st prev g).2.donX prev.roadDON).2.2 ∧
    (calibStepCore P C i st prev g).1.donAccumulator =
      (roadDONUpdate i st.donAccumulator st.donSampleCount
        (calibStepCore P C i st prev g).2.donX prev.roadDON).1 ∧
    (calibStepCore P C i st prev g).1.donSampleCount =
      (roadDONUpdate i st.donAccumulator st.donSampleCount
        (calibStepCore P C i st prev g).2.donX prev.roadDON).2.1 :=
  ⟨rfl, rfl, rfl, rfl, rfl, rfl⟩

theorem calibLoop_prefix (P : CalibParams) (C : CalibCtx) :
    ∀ n st outs, calibLoop P C n = some (st, outs) → ∀ i, i ≤ n →
    ∀ sti outsi, calibLoop P C i = some (sti, outsi) →
    outsi.reverse = outs.reverse.take i := by
  intro n
  induction n with
  | zero =>
    intro st outs h i hi sti outsi hLi
    have : i = 0 := by omega
    subst this
    simp only [calibLoop, Option.some_inj, Prod.mk.injEq] at h hLi
    rw [← hLi.2, ← h.2]
    simp
  | succ n ih =>
    intro st outs h i hi sti outsi hLi
    have hstep := h
    simp only [calibLoop] at hstep
    obtain ⟨sr, hsr, h2⟩ := Option.bind_eq_some.mp hstep
    obtain ⟨so, hso, h3⟩ := Option.map_eq_some'.mp h2
    obtain ⟨hst, houts⟩ := (Prod.mk.injEq _ _ _ _).mp h3
    have hlen : sr.2.length = n := calibLoop_len P C n sr.1 sr.2 (by rw [hsr])
    have hrev : outs.reverse = sr.2.reverse ++ [so.2] := by
      rw [← houts, List.reverse_cons]
    rcases Nat.lt_succ_iff_lt_or_eq.mp (Nat.lt_succ_of_le hi) with hlt | heq
    · have := ih sr.1 sr.2 (by rw [hsr]) i (by omega) sti outsi hLi
      rw [this, hrev, List.take_append_of_le_length (by simp [hlen]; omega)]
    · subst heq
      rw [hLi] at h
      obtain ⟨e1, e2⟩ := (Prod.mk.injEq _ _ _ _).mp (Option.some_inj.mp h)
      have hlen2 : outsi.length = n + 1 := calibLoop_len P C (n + 1) sti outsi hLi
      rw [← e2]
      exact (List.take_of_length_le (le_of_eq (by rw [List.length_reverse, hlen2]))).symm

/-- The block-accumulator invariant holds after every completed
iteration count. -/
theorem calibLoop_danInv (P : CalibParams) (C : CalibCtx) :
    ∀ n st outs, calibLoop P C n = some (st, outs) → DanInv st outs.reverse := by
  intro n
  induction n with
  | zero =>
    intro st outs h
    simp only [calibLoop, Option.some_inj, Prod.mk.injEq] at h
    rw [← h.1, ← h.2]
    unfold DanInv
    refine ⟨?_, ?_, ?_, ?_⟩ <;> simp [initState, winStart, f0, Frac.toRat_fi]
  | succ n ih =>
    intro st outs h
    simp only [calibLoop] at h
    obtain ⟨sr, hsr, h2⟩ := Option.bind_eq_some.mp h
    obtain ⟨so, hso, h3⟩ := Option.map_eq_some'.mp h2
    obtain ⟨hst, houts⟩ := (Prod.mk.injEq _ _ _ _).mp h3
    have hlen : sr.2.length = n := calibLoop_len P C n sr.1 sr.2 (by rw [hsr])
    obtain ⟨hd1, hd2, hd3, hd4⟩ := ih sr.1 sr.2 (by rw [hsr])
    obtain ⟨gy, hgy, e1, e2⟩ :=
      calibStep_elim P C n sr.1 (sr.2.headD initStepOut) so.1 so.2 hso
    obtain ⟨_, f2, f3, _, f5, f6⟩ := stepCore_dan P C n sr.1 (sr.2.headD initStepOut) gy
    rw [← e1] at f2 f3 f5 f6
    have hdanx : so.2.danX =
        (calibStepCore P C n sr.1 (sr.2.headD initStepOut) gy).2.danX := by rw [e2]
    have hdonx : so.2.donX =
        (calibStepCore P C n sr.1 (sr.2.headD initStepOut) gy).2.donX := by rw [e2]
    rw [← hst, ← houts, List.reverse_cons]
    have hLr : sr.2.reverse.length = n := by simp [hlen]
    unfold DanInv
    by_cases h0 : n = 0
    · subst h0
      have hnil : sr.2 = [] := List.eq_nil_of_length_eq_zero hlen
      rw [hnil]
      refine ⟨?_, ?_, ?_, ?_⟩
      · rw [f2, roadDANUpdate_zero]
        simp [winStart, hdanx]
      · rw [f3, roadDANUpdate_zero]
        simp [winStart, f1, Frac.toRat_fi]
      · rw [f5, roadDONUpdate_zero]
        simp [winStart, hdonx]
      · rw [f6, roadDONUpdate_zero]
        simp [winStart, f1, Frac.toRat_fi]
    · by_cases h60 : n % 60 = 0
      · obtain ⟨b1, b2, _⟩ := roadDANUpdate_boundary n h0 h60
          (C.interpolatedGPS.getD n gpsZero) sr.1.danAccumulator sr.1.danSampleCount
          ((calibStepCore P C n sr.1 (sr.2.headD initStepOut) gy).2.danX)
          ((sr.2.headD initStepOut).roadDAN)
        have hws : winStart (n + 1) = n + 1 := winStart_succ_boundary n h0 h60
        refine ⟨?_, ?_, ?_, ?_⟩
        · rw [f2, b1]
          have hdrop : (((sr.2.reverse ++ [so.2]).map fun o => o.danX.toRat).drop
              (winStart (sr.2.reverse ++ [so.2]).length)).sum = 0 := by
            rw [List.drop_eq_nil_of_le (by simp [hlen, hws])]
            rfl
          rw [hdrop]
          simp [f0, Frac.toRat_fi]
        · rw [f3, b2]
          have : (sr.2.reverse ++ [so.2]).length = n + 1 := by simp [hlen]
          rw [this, hws]
          simp [f0, Frac.toRat_fi]
        · rw [f5, roadDONUpdate_boundary n h0 h60]
          have hdrop : (((sr.2.reverse ++ [so.2]).map fun o => o.donX.toRat).drop
              (winStart (sr.2.reverse ++ [so.2]).length)).sum = 0 := by
            rw [List.drop_eq_nil_of_le (by simp [hlen, hws])]
            rfl
          rw [hdrop]
          simp [f0, Frac.toRat_fi]
        · rw [f6, roadDONUpdate_boundary n h0 h60]
          have : (sr.2.reverse ++ [so.2]).length = n + 1 := by simp [hlen]
          rw [this, hws]
          simp [f0, Frac.toRat_fi]
      · have hws : winStart (n + 1) = winStart n := winStart_succ_eq n h60
        have hwle : winStart n ≤ n := winStart_le n
        have hcount : ((n + 1 - winStart n : ℕ) : ℚ) = ((n - winStart n : ℕ) : ℚ) + 1 := by
          rw [Nat.succ_sub hwle]
          push_cast
          ring
        have hL1 : (sr.2.reverse ++ [so.2]).length = n + 1 := by simp [hlen]
        refine ⟨?_, ?_, ?_, ?_⟩
        · rw [f2, roadDANUpdate_mid n h0 h60]
          have hk : winStart n ≤ (sr.2.reverse.map fun o => o.danX.toRat).length := by
            rw [List.length_map, hLr]; exact hwle
          have hsum : (((sr.2.reverse ++ [so.2]).map fun o => o.danX.toRat).drop
              (winStart (sr.2.reverse ++ [so.2]).length)).sum =
              ((sr.2.reverse.map fun o => o.danX.toRat).drop (winStart n)).sum +
                so.2.danX.toRat := by
            rw [hL1, hws, List.map_append]
            simp only [List.map_cons, List.map_nil]
            exact drop_append_sum _ _ _ hk
          rw [hsum, Frac.toRat_add, hd1, hdanx]
          rw [hLr]
        · rw [f3, roadDANUpdate_mid n h0 h60, hL1, hws, hcount, Frac.toRat_add]
          rw [hd2, hLr]
          simp [f1, Frac.toRat_fi]
        · rw [f5, roadDONUpdate_mid n h0 h60]
          have hk : winStart n ≤ (sr.2.reverse.map fun o => o.donX.toRat).length := by
            rw [List.length_map, hLr]; exact hwle
          have hsum : (((sr.2.reverse ++ [so.2]).map fun o => o.donX.toRat).drop
              (winStart (sr.2.reverse ++ [so.2]).length)).sum =
              ((sr.2.reverse.map fun o => o.donX.toRat).drop (winStart n)).sum +
                so.2.donX.toRat := by
            rw [hL1, hws, List.map_append]
            simp only [List.map_cons, List.map_nil]
            exact drop_append_sum _ _ _ hk
          rw [hsum, Frac.toRat_add, hd3, hdonx]
          rw [hLr]
        · rw [f6, roadDONUpdate_mid n h0 h60, hL1, hws, hcount, Frac.toRat_add]
          rw [hd4, hLr]
          simp [f1, Frac.toRat_fi]

/-- Like the step extraction above, but also exposing the
block-accumulator invariant at the state entering sample `i`. -/
theorem apply_step_at4 (accelData gyroData magData : List Vector3D) (gpsData : List GPSData)
    (alpha observerAlpha filterAlpha gpsSpeedAlpha danDecay : Frac) (i : ℕ)
    (hi : i < accelData.length)
    (hc : (applyFloatingCalibration accelData gyroData magData gpsData alpha observerAlpha
      filterAlpha gpsSpeedAlpha danDecay).isSome = true) :
    ∃ (C : CalibCtx) (outs : List StepOut) (sti : TrackerState) (gy : Vector3D),
      C.accelData = accelData ∧
      jsGet? gyroData i = some gy ∧
      outs.length = accelData.length ∧
      calibOf accelData gyroData magData gpsData alpha observerAlpha filterAlpha
        gpsSpeedAlpha danDecay = finalizeResult accelData outs ∧
      DanInv sti (outs.reverse.take i) ∧
      outs.reverse.getD i initStepOut =
        (calibStepCore (mkParams alpha observerAlpha filterAlpha gpsSpeedAlpha danDecay) C i
          sti (if i = 0 then initStepOut else outs.reverse.getD (i - 1) initStepOut) gy).2 := by
  obtain ⟨stepped, st, outs, hs, hl, hres⟩ := apply_elim accelData gyroData magData gpsData
    alpha observerAlpha filterAlpha gpsSpeedAlpha danDecay hc
  obtain ⟨sti, outsi, sti1, g1, g2, g3⟩ := calibLoop_get _ _ _ _ _ hl i hi
  have hhead := calibLoop_head _ _ _ _ _ hl i hi sti outsi g1
  obtain ⟨gy, hgy, e1, e2⟩ := calibStep_elim _ _ _ _ _ _ _ g2
  have hlink := calibLoop_link _ _ i sti outsi g1
  have hdinv := calibLoop_danInv _ _ i sti outsi g1
  have hpre := calibLoop_prefix _ _ accelData.length st outs hl i (le_of_lt hi) sti outsi g1
  rw [hpre] at hdinv
  rw [hhead] at hlink e2
  exact ⟨mkCtx accelData gyroData magData gpsData gpsSpeedAlpha stepped, outs, sti, gy,
    rfl, hgy, calibLoop_len _ _ _ _ _ hl, hres, hdinv, e2⟩

/-- C4 (corrected): in every completing run and at every nonzero
sample index `i`, the `roadDAN` channel is the accumulator average at
block boundaries (`i % 60 = 0`) — namely the mean of the `danX`
samples in the half-open window `[winStart i, i)`, which holds 60
samples at the first boundary but only 59 at every later one, because
boundary samples are never accumulated — and is the zero-order hold
of the previous value everywhere else; likewise for `roadDON` over
`donX`. -/
theorem C4_roadDAN_blocks (accelData gyroData magData : List Vector3D)
    (gpsData : List GPSData) (alpha observerAlpha filterAlpha gpsSpeedAlpha danDecay : Frac)
    (i : ℕ) (hi : i < accelData.length) (h0 : i ≠ 0)
    (hc : (applyFloatingCalibration accelData gyroData magData gpsData alpha observerAlpha
      filterAlpha gpsSpeedAlpha danDecay).isSome = true) :
    (i % 60 = 0 →
      ((calibOf accelData gyroData magData gpsData alpha observerAlpha filterAlpha
          gpsSpeedAlpha danDecay).roadDAN.getD i f0).toRat =
        ((((calibOf accelData gyroData magData gpsData alpha observerAlpha filterAlpha
          gpsSpeedAlpha danDecay).danX.map Frac.toRat).take i).drop (winStart i)).sum /
          ((i - winStart i : ℕ) : ℚ) ∧
      ((calibOf accelData gyroData magData gpsData alpha observerAlpha filterAlpha
          gpsSpeedAlpha danDecay).roadDON.getD i f0).toRat =
        ((((calibOf accelData gyroData magData gpsData alpha observerAlpha filterAlpha
          gpsSpeedAlpha danDecay).donX.map Frac.toRat).take i).drop (winStart i)).sum /
          ((i - winStart i : ℕ) : ℚ)) ∧
    (i % 60 ≠ 0 →
      ((calibOf accelData gyroData magData gpsData alpha observerAlpha filterAlpha
          gpsSpeedAlpha danDecay).roadDAN.getD i f0 =
        (calibOf accelData gyroData magData gpsData alpha observerAlpha filterAlpha
          gpsSpeedAlpha danDecay).roadDAN.getD (i - 1) f0 ∧
      (calibOf accelData gyroData magData gpsData alpha observerAlpha filterAlpha
          gpsSpeedAlpha danDecay).roadDON.getD i f0 =
        (calibOf accelData gyroData magData gpsData alpha observerAlpha filterAlpha
          gpsSpeedAlpha danDecay).roadDON.getD (i - 1) f0)) := by
  obtain ⟨C, outs, sti, gy, hCa, hgy, hlen, hres, hdinv, hout⟩ := apply_step_at4 accelData
    gyroData magData gpsData alpha observerAlpha filterAlpha gpsSpeedAlpha danDecay i hi hc
  have hi2 : i < outs.reverse.length := by simp [hlen]; exact hi
  have hi3 : i - 1 < outs.reverse.length := by omega
  rw [if_neg h0] at hout
  obtain ⟨q1, _, _, q4, _, _⟩ := stepCore_dan
    (mkParams alpha observerAlpha filterAlpha gpsSpeedAlpha danDecay) C i sti
    (outs.reverse.getD (i - 1) initStepOut) gy
  have hgDAN : (calibOf accelData gyroData magData gpsData alpha observerAlpha filterAlpha
      gpsSpeedAlpha danDecay).roadDAN.getD i f0 =
      (outs.reverse.getD i initStepOut).roadDAN := by
    rw [hres]; exact getD_map_of_lt _ _ _ hi2 _ _
  have hgDON : (calibOf accelData gyroData magData gpsData alpha observerAlpha filterAlpha
      gpsSpeedAlpha danDecay).roadDON.getD i f0 =
      (outs.reverse.getD i initStepOut).roadDON := by
    rw [hres]; exact getD_map_of_lt _ _ _ hi2 _ _
  obtain ⟨hd1, hd2, hd3, hd4⟩ := hdinv
  have htk : (outs.reverse.take i).length = i := by
    rw [List.length_take, List.length_reverse, hlen]
    exact Nat.min_eq_left (le_of_lt hi)
  rw [htk] at hd1 hd2 hd3 hd4
  have hdl : (calibOf accelData gyroData magData gpsData alpha observerAlpha filterAlpha
      gpsSpeedAlpha danDecay).danX.map Frac.toRat =
      outs.reverse.map (fun o => o.danX.toRat) := by
    rw [hres]
    show (outs.reverse.map (·.danX)).map Frac.toRat = _
    rw [List.map_map]
    rfl
  have hol : (calibOf accelData gyroData magData gpsData alpha observerAlpha filterAlpha
      gpsSpeedAlpha danDecay).donX.map Frac.toRat =
      outs.reverse.map (fun o => o.donX.toRat) := by
    rw [hres]
    show (outs.reverse.map (·.donX)).map Frac.toRat = _
    rw [List.map_map]
    rfl
  refine ⟨fun h60 => ⟨?_, ?_⟩, fun h60 => ⟨?_, ?_⟩⟩
  · rw [hgDAN, hout, q1, (roadDANUpdate_boundary i h0 h60 _ _ _ _ _).2.2, Frac.toRat_div,
      hd1, hd2, hdl, List.map_take]
  · rw [hgDON, hout, q4, roadDONUpdate_boundary i h0 h60, Frac.toRat_div,
      hd3, hd4, hol, List.map_take]
  · have hgDAN1 : (calibOf accelData gyroData magData gpsData alpha observerAlpha filterAlpha
        gpsSpeedAlpha danDecay).roadDAN.getD (i - 1) f0 =
        (outs.reverse.getD (i - 1) initStepOut).roadDAN := by
      rw [hres]; exact getD_map_of_lt _ _ _ hi3 _ _
    rw [hgDAN, hout, q1, roadDANUpdate_mid i h0 h60, hgDAN1]
  · have hgDON1 : (calibOf accelData gyroData magData gpsData alpha observerAlpha filterAlpha
        gpsSpeedAlpha danDecay).roadDON.getD (i - 1) f0 =
        (outs.reverse.getD (i - 1) initStepOut).roadDON := by
      rw [hres]; exact getD_map_of_lt _ _ _ hi3 _ _
    rw [hgDON, hout, q4, roadDONUpdate_mid i h0 h60, hgDON1]


set_option maxRecDepth 100000 in
/-- Counterexample to the literal C4 claim: a concrete completing
121-sample run (unit z-spike at sample 60, `alpha = 1`, `danDecay =
0`) in which the value emitted into `roadDAN` at the block boundary
`i = 120` is 0, while the 60 `danX` samples of the full block
preceding the boundary (`danX[60..119]`, in range since the array has
121 entries) sum to 1 — so their mean is 1/60 ≠ 0.  The code never
accumulates boundary samples: sample 60's spike is dropped from every
window, and the second window holds only the 59 samples
`danX[61..119]`. -/
theorem C4_counterexample :
    ((ex4Run.map fun r => decide (Frac.feq (r.roadDAN.getD 120 f0) f0)) = some true ∧
      (ex4Run.map fun r => decide (Frac.feq (fsum ((r.danX.drop 60).take 60)) f1)) =
        some true ∧
      (ex4Run.map fun r => decide (r.danX.length = 121 ∧ r.roadDAN.length = 121)) =
        some true) ∧
    (0 : ℚ) ≠ 1 / 60 :=
  ⟨⟨by decide, by decide, by decide⟩, by norm_num⟩

set_option maxRecDepth 100000 in
/-- Witness for the corrected C4 at the second block boundary of a
concrete completing run. -/
theorem C4_witness :
    (120 < ex4Accel.length ∧ (120 : ℕ) ≠ 0 ∧
      (applyFloatingCalibration ex4Accel ex4Gyro [] exGps0 (Frac.fi 1) f0 (Frac.fi 1)
        (Frac.fr 1 2) f0).isSome = true ∧ 120 % 60 = 0) ∧
    (((calibOf ex4Accel ex4Gyro [] exGps0 (Frac.fi 1) f0 (Frac.fi 1) (Frac.fr 1 2)
        f0).roadDAN.getD 120 f0).toRat =
      ((((calibOf ex4Accel ex4Gyro [] exGps0 (Frac.fi 1) f0 (Frac.fi 1) (Frac.fr 1 2)
        f0).danX.map Frac.toRat).take 120).drop (winStart 120)).sum /
        ((120 - winStart 120 : ℕ) : ℚ) ∧
      ((calibOf ex4Accel ex4Gyro [] exGps0 (Frac.fi 1) f0 (Frac.fi 1) (Frac.fr 1 2)
        f0).roadDON.getD 120 f0).toRat =
      ((((calibOf ex4Accel ex4Gyro [] exGps0 (Frac.fi 1) f0 (Frac.fi 1) (Frac.fr 1 2)
        f0).donX.map Frac.toRat).take 120).drop (winStart 120)).sum /
        ((120 - winStart 120 : ℕ) : ℚ)) :=
  ⟨⟨by decide, by decide, by decide, by decide⟩,
    (C4_roadDAN_blocks ex4Accel ex4Gyro [] exGps0 (Frac.fi 1) f0 (Frac.fi 1) (Frac.fr 1 2) f0
      120 (by decide) (by decide) (by decide)).1 (by decide)⟩
